import Mathlib

/-!
# CGUIDialogPVRGroupManager

A shallow embedding of `xbmc/pvr/dialogs/GUIDialogPVRGroupManager.cpp`.

The dialog is a view-controller: it owns three selected indices, three list
snapshots, a pointer to the selected group and the radio/TV flag, and it calls
into the PVR channel-group container and into the GUI framework.  Both
collaborators live outside the embedded file, so they are taken as a parameter
(`Env`): every call the dialog makes is a field of `Env`, acting on an abstract
PVR state `P` and an abstract GUI state `U`.  Every state-changing call is also
appended to a log so that statements about "which calls were made, in which
order" can be expressed.

Pointers that the source dereferences (`m_selectedGroup`, the entries returned
by `CFileItemList::Get`, the result of `GetByName`) are `Option` values, and a
dereference of a null pointer ends the run with a `Fault`.

`OnWindowLoaded` and `OnWindowUnload` (source lines 334-357) only configure the
three `CGUIViewControl` members inside the GUI framework; what they establish is
stated as `viewsOwnOnlyLists`.  `CancelChanges` is a stub that returns false.
-/

namespace PVRGroupManager

/-! ## Control identifiers (source lines 30-41) -/

def CONTROL_LIST_CHANNELS_LEFT : Nat := 11
def CONTROL_LIST_CHANNELS_RIGHT : Nat := 12
def CONTROL_LIST_CHANNEL_GROUPS : Nat := 13
def CONTROL_CURRENT_GROUP_LABEL : Nat := 20
def CONTROL_UNGROUPED_LABEL : Nat := 21
def CONTROL_IN_GROUP_LABEL : Nat := 22
def BUTTON_HIDE_GROUP : Nat := 25
def BUTTON_NEWGROUP : Nat := 26
def BUTTON_RENAMEGROUP : Nat := 27
def BUTTON_DELGROUP : Nat := 28
def BUTTON_OK : Nat := 29
def BUTTON_TOGGLE_RADIO_TV : Nat := 34

/-! ## Data model -/

/-- A non-null `CPVRChannelGroupPtr`: the identity of a channel group object. -/
abbrev GroupPtr := Nat

/-- A `CPVRChannelPtr` as returned by `GetPVRChannelInfoTag()`; it may be null. -/
abbrev ChannelPtr := Option Nat

/-- Modelled from the spec: `CFileItem` (declared in `FileItem.h`, which is not
among the sources).  Only the members the dialog reads are kept: the title, the
folder flag that `GetFolderCount` / `GetFileCount` inspect, and the channel tag. -/
structure CFileItem where
  m_strTitle : String
  m_bIsFolder : Bool
  channel : ChannelPtr
  deriving DecidableEq, Repr

/-- Modelled from the spec: `CFileItemList`, a sequence of list entries. -/
abbrev CFileItemList := List CFileItem

/-- Modelled from the spec: `CFileItemList::Get(int)`, which yields the entry at
an index, or a null pointer when there is no entry at that index. -/
def CFileItemList.Get (l : CFileItemList) (iItem : Int) : Option CFileItem :=
  if 0 ≤ iItem then l[iItem.toNat]? else none

/-- Modelled from the spec: `CFileItemList::GetFolderCount`, the number of
entries that are folders. -/
def CFileItemList.GetFolderCount (l : CFileItemList) : Nat :=
  l.countP (fun i => i.m_bIsFolder)

/-- Modelled from the spec: `CFileItemList::GetFileCount`, the number of
entries that are not folders. -/
def CFileItemList.GetFileCount (l : CFileItemList) : Nat :=
  l.countP (fun i => !i.m_bIsFolder)

/-- The three `CGUIViewControl` members of the dialog. -/
inductive View where
  | ungrouped
  | members
  | groups
  deriving DecidableEq, Repr

/-- A `CGUIMessage`, reduced to what the dialog reads from it. -/
structure CGUIMessage where
  message : Nat
  senderId : Nat
  param1 : Int
  deriving DecidableEq, Repr

/-- A null pointer was dereferenced. -/
inductive Fault where
  | nullSelectedGroup
  | nullListItem
  | nullNamedGroup
  deriving DecidableEq, Repr

/-- The calls recorded in the log, in the order in which they are made.
`update` marks the entry into `Update` (a list refresh). -/
inductive Event where
  | update
  | persistAll (bRadio : Bool)
  | close
  | showAndGetInput
  | addGroup (bRadio : Bool) (strName : String)
  | setGroupType (g : GroupPtr) (t : Nat)
  | yesNoOpen
  | deleteGroup (bRadio : Bool) (g : GroupPtr)
  | setGroupName (g : GroupPtr) (strName : String)
  | showOKDialogText (heading text : Nat)
  | addToGroup (g : GroupPtr) (ch : ChannelPtr)
  | removeFromGroup (g : GroupPtr) (ch : ChannelPtr)
  | setHidden (g : GroupPtr) (b : Bool)
  | getGroupList (bRadio : Bool)
  | setPlayingGroup (g : GroupPtr)
  deriving DecidableEq, Repr

/-- Modelled from the spec: everything the dialog consumes from outside the
embedded file.  `P` is the state of the PVR subsystem (the channel-group
container keyed by radio/TV mode, its groups, the playing group), `U` the state
of the GUI framework (views, controls, other dialogs, the user).  Constants that
come from headers which are not among the sources are fields as well. -/
structure Env (P U : Type) where
  /- constants from `input/Key.h`, `guilib/GUIMessage.h`, `pvr/PVRTypes.h` -/
  ACTION_SELECT_ITEM : Int
  ACTION_MOUSE_LEFT_CLICK : Int
  GUI_MSG_CLICKED : Nat
  PVR_GROUP_TYPE_USER_DEFINED : Nat
  /- `g_localizeStrings.Get` -/
  localize : Nat → String
  /- `CPVRChannelGroups`, selected by `ChannelGroups()->Get(bRadio)` -/
  PersistAll : P → Bool → P × Bool
  AddGroup : P → Bool → String → P × Bool
  DeleteGroup : P → Bool → GroupPtr → P × Bool
  GetByName : P → Bool → String → Option GroupPtr
  GetGroupList : P → Bool → CFileItemList
  Size : P → Bool → Nat
  /- `CPVRChannelGroup` -/
  SetGroupType : P → GroupPtr → Nat → P
  GroupName : P → GroupPtr → String
  SetGroupName : P → GroupPtr → String → P
  AddToGroup : P → GroupPtr → ChannelPtr → P × Bool
  RemoveFromGroup : P → GroupPtr → ChannelPtr → P
  SetHidden : P → GroupPtr → Bool → P
  IsHidden : P → GroupPtr → Bool
  IsInternalGroup : P → GroupPtr → Bool
  GetMembers : P → GroupPtr → Bool → CFileItemList
  /- `CPVRManager::SetPlayingGroup` -/
  SetPlayingGroup : P → GroupPtr → P
  /- `CGUIKeyboardFactory::ShowAndGetInput`: initial text and heading in,
     confirmation flag and entered text out -/
  ShowAndGetInput : U → String → String → U × Bool × String
  /- `GetWindow<CGUIDialogYesNo>(WINDOW_DIALOG_YES_NO)` is non-null -/
  hasYesNoDialog : U → Bool
  /- `SetHeading`, `SetLine` x3, `Open`, then `IsConfirmed`; the argument is line 1 -/
  yesNoOpen : U → String → U × Bool
  ShowOKDialogText : U → Nat → Nat → U
  Close : U → U
  /- `CGUIViewControl` -/
  HasControl : U → View → Nat → Bool
  GetSelectedItem : U → View → Int
  SetSelectedItem : U → View → Int → U
  SetItems : U → View → CFileItemList → U
  SetCurrentView : U → View → Nat → U
  ViewClear : U → View → U
  /- `GetControl(id)` is non-null, and `CGUIRadioButtonControl::IsSelected` -/
  hasControlPtr : U → Nat → Bool
  IsSelected : U → Nat → Bool
  /- `SET_CONTROL_LABEL`, `SET_CONTROL_SELECTED` -/
  setControlLabel : U → Nat → String → U
  setControlSelected : U → Nat → Bool → U
  /- the base class `CGUIDialog` -/
  baseOnInitWindow : U → U
  baseOnDeinitWindow : U → Int → U
  baseOnMessage : U → CGUIMessage → U × Bool

/-- The data members of `CGUIDialogPVRGroupManager`, together with the window
property "IsRadio" that `SetRadio` maintains.  The header is not among the
sources; the three indices are kept as mathematical integers. -/
structure Dialog where
  m_iSelectedUngroupedChannel : Int
  m_iSelectedGroupMember : Int
  m_iSelectedChannelGroup : Int
  m_ungroupedChannels : CFileItemList
  m_groupMembers : CFileItemList
  m_channelGroups : CFileItemList
  m_selectedGroup : Option GroupPtr
  m_bIsRadio : Bool
  propIsRadio : String
  deriving DecidableEq, Repr

/-- The dialog together with the two collaborators and the call log. -/
structure Ctx (P U : Type) where
  dlg : Dialog
  pvr : P
  gui : U
  log : List Event

/-- Outcome of a member function: its return value, or the fault that ended
it, together with the context at that point. -/
abbrev Res (P U : Type) (α : Type) := Except Fault α × Ctx P U

variable {P U : Type}

/-- Continue with a `bool` return value after a call to a `void` function. -/
def Res.thenReturn (r : Res P U Unit) (b : Bool) : Res P U Bool :=
  match r.1 with
  | .error e => (.error e, r.2)
  | .ok _ => (.ok b, r.2)

/-- The short-circuit `||` of two handler calls. -/
def Res.orElse (r : Res P U Bool) (k : Ctx P U → Res P U Bool) : Res P U Bool :=
  match r.1 with
  | .error e => (.error e, r.2)
  | .ok true => (.ok true, r.2)
  | .ok false => k r.2

/-! ## The member functions -/

/-- Source lines 43-54, the constructor. -/
def construct (p : P) (u : U) : Ctx P U :=
  { dlg :=
      { m_iSelectedUngroupedChannel := 0
        m_iSelectedGroupMember := 0
        m_iSelectedChannelGroup := 0
        m_ungroupedChannels := []
        m_groupMembers := []
        m_channelGroups := []
        m_selectedGroup := none
        m_bIsRadio := false
        propIsRadio := "" }
    pvr := p
    gui := u
    log := [] }

/-- Source lines 63-67. -/
def SetRadio (c : Ctx P U) (bIsRadio : Bool) : Ctx P U :=
  { c with dlg := { c.dlg with m_bIsRadio := bIsRadio
                               propIsRadio := if bIsRadio then "true" else "" } }

/-- Source lines 69-72. -/
def PersistChanges (env : Env P U) (c : Ctx P U) : Bool × Ctx P U :=
  ((env.PersistAll c.pvr c.dlg.m_bIsRadio).2,
   { c with pvr := (env.PersistAll c.pvr c.dlg.m_bIsRadio).1
            log := c.log ++ [Event.persistAll c.dlg.m_bIsRadio] })

/-- Source lines 415-424. -/
def Clear (env : Env P U) (c : Ctx P U) : Ctx P U :=
  { c with
    gui := env.ViewClear (env.ViewClear (env.ViewClear c.gui View.ungrouped) View.members) View.groups
    dlg := { c.dlg with m_ungroupedChannels := []
                        m_groupMembers := []
                        m_channelGroups := [] } }

/-- Source lines 361-363: the three `SetCurrentView` calls. -/
def setCurrentViews (env : Env P U) (u : U) : U :=
  env.SetCurrentView
    (env.SetCurrentView
      (env.SetCurrentView u View.ungrouped CONTROL_LIST_CHANNELS_LEFT)
      View.members CONTROL_LIST_CHANNELS_RIGHT)
    View.groups CONTROL_LIST_CHANNEL_GROUPS

/-- Source lines 361-370: the GUI state at the point where `Update` asks the
channel-group view for its selected item. -/
def guiAtSelection (env : Env P U) (c : Ctx P U) : U :=
  env.SetSelectedItem
    (env.SetItems (Clear env { c with gui := setCurrentViews env c.gui }).gui
      View.groups (env.GetGroupList c.pvr c.dlg.m_bIsRadio))
    View.groups c.dlg.m_iSelectedChannelGroup

/-- Source lines 379-400: the three labels and the hide button. -/
def setLabels (env : Env P U) (p : P) (bIsRadio : Bool) (g : GroupPtr) (u : U) : U :=
  let u1 := env.setControlLabel u CONTROL_CURRENT_GROUP_LABEL (env.GroupName p g)
  let u2 := env.setControlSelected u1 BUTTON_HIDE_GROUP (env.IsHidden p g)
  if env.IsInternalGroup p g then
    let u3 := env.setControlLabel u2 CONTROL_UNGROUPED_LABEL
      (env.localize 19022 ++ " " ++ (if bIsRadio then env.localize 19024 else env.localize 19023))
    env.setControlLabel u3 CONTROL_IN_GROUP_LABEL
      (env.localize 19218 ++ " " ++ (if bIsRadio then env.localize 19024 else env.localize 19023))
  else
    let u3 := env.setControlLabel u2 CONTROL_UNGROUPED_LABEL (env.localize 19219)
    env.setControlLabel u3 CONTROL_IN_GROUP_LABEL
      (env.localize 19220 ++ " " ++ env.GroupName p g)

/-- Source lines 359-413. -/
def Update (env : Env P U) (c : Ctx P U) : Res P U Unit :=
  let c0 : Ctx P U := { c with log := c.log ++ [Event.update] }
  let c1 : Ctx P U := Clear env { c0 with gui := setCurrentViews env c0.gui }
  /- get the groups list -/
  let c2 : Ctx P U :=
    { c1 with dlg := { c1.dlg with m_channelGroups :=
                         c1.dlg.m_channelGroups ++ env.GetGroupList c1.pvr c1.dlg.m_bIsRadio }
              log := c1.log ++ [Event.getGroupList c1.dlg.m_bIsRadio] }
  let c3 : Ctx P U :=
    { c2 with gui := env.SetSelectedItem (env.SetItems c2.gui View.groups c2.dlg.m_channelGroups)
                       View.groups c2.dlg.m_iSelectedChannelGroup }
  /- select a group -/
  match CFileItemList.Get c3.dlg.m_channelGroups (env.GetSelectedItem c3.gui View.groups) with
  | none => (.error Fault.nullListItem, c3)
  | some pItem =>
    let c4 : Ctx P U :=
      { c3 with dlg := { c3.dlg with m_selectedGroup :=
                           env.GetByName c3.pvr c3.dlg.m_bIsRadio pItem.m_strTitle } }
    if c4.dlg.m_selectedGroup.isSome then
      match c4.dlg.m_selectedGroup with
      | none => (.error Fault.nullSelectedGroup, c4)
      | some g =>
        let c5 : Ctx P U :=
          { c4 with pvr := env.SetPlayingGroup c4.pvr g
                    log := c4.log ++ [Event.setPlayingGroup g] }
        let c6 : Ctx P U := { c5 with gui := setLabels env c5.pvr c5.dlg.m_bIsRadio g c5.gui }
        /- all channels that are not in this group -/
        let c7 : Ctx P U :=
          { c6 with dlg := { c6.dlg with m_ungroupedChannels :=
                               c6.dlg.m_ungroupedChannels ++ env.GetMembers c6.pvr g false } }
        let c8 : Ctx P U :=
          { c7 with gui := env.SetSelectedItem
                             (env.SetItems c7.gui View.ungrouped c7.dlg.m_ungroupedChannels)
                             View.ungrouped c7.dlg.m_iSelectedUngroupedChannel }
        /- all channels in this group -/
        let c9 : Ctx P U :=
          { c8 with dlg := { c8.dlg with m_groupMembers :=
                               c8.dlg.m_groupMembers ++ env.GetMembers c8.pvr g true } }
        let c10 : Ctx P U :=
          { c9 with gui := env.SetSelectedItem
                             (env.SetItems c9.gui View.members c9.dlg.m_groupMembers)
                             View.members c9.dlg.m_iSelectedGroupMember }
        (.ok (), c10)
    else (.ok (), c4)

/-- Source lines 80-93. -/
def ActionButtonOk (env : Env P U) (message : CGUIMessage) (c : Ctx P U) : Res P U Bool :=
  if message.senderId = BUTTON_OK then
    let c1 := (PersistChanges env c).2
    (.ok true, { c1 with gui := env.Close c1.gui, log := c1.log ++ [Event.close] })
  else (.ok false, c)

/-- Source lines 95-122. -/
def ActionButtonNewGroup (env : Env P U) (message : CGUIMessage) (c : Ctx P U) : Res P U Bool :=
  if message.senderId = BUTTON_NEWGROUP then
    /- prompt for a group name -/
    let kb := env.ShowAndGetInput c.gui "" (env.localize 19139)
    let c1 : Ctx P U := { c with gui := kb.1, log := c.log ++ [Event.showAndGetInput] }
    if kb.2.1 then
      if kb.2.2 ≠ "" then
        /- add the group if it doesn't already exist -/
        let ag := env.AddGroup c1.pvr c1.dlg.m_bIsRadio kb.2.2
        let c2 : Ctx P U :=
          { c1 with pvr := ag.1, log := c1.log ++ [Event.addGroup c1.dlg.m_bIsRadio kb.2.2] }
        if ag.2 then
          match env.GetByName c2.pvr c2.dlg.m_bIsRadio kb.2.2 with
          | none => (.error Fault.nullNamedGroup, c2)
          | some g =>
            let c3 : Ctx P U :=
              { c2 with pvr := env.SetGroupType c2.pvr g env.PVR_GROUP_TYPE_USER_DEFINED
                        log := c2.log ++ [Event.setGroupType g env.PVR_GROUP_TYPE_USER_DEFINED] }
            let c4 : Ctx P U :=
              { c3 with dlg := { c3.dlg with m_iSelectedChannelGroup :=
                                   (env.Size c3.pvr c3.dlg.m_bIsRadio : Int) - 1 } }
            (Update env c4).thenReturn true
        else (.ok true, c2)
      else (.ok true, c1)
    else (.ok true, c1)
  else (.ok false, c)

/-- Source lines 124-154. -/
def ActionButtonDeleteGroup (env : Env P U) (message : CGUIMessage) (c : Ctx P U) : Res P U Bool :=
  if message.senderId = BUTTON_DELGROUP then
    if c.dlg.m_selectedGroup.isNone then (.ok false, c)
    else if !env.hasYesNoDialog c.gui then (.ok false, c)
    else
      match c.dlg.m_selectedGroup with
      | none => (.error Fault.nullSelectedGroup, c)
      | some g =>
        let yn := env.yesNoOpen c.gui (env.GroupName c.pvr g)
        let c1 : Ctx P U := { c with gui := yn.1, log := c.log ++ [Event.yesNoOpen] }
        if yn.2 then
          let dg := env.DeleteGroup c1.pvr c1.dlg.m_bIsRadio g
          let c2 : Ctx P U :=
            { c1 with pvr := dg.1, log := c1.log ++ [Event.deleteGroup c1.dlg.m_bIsRadio g] }
          if dg.2 then (Update env c2).thenReturn true
          else (.ok true, c2)
        else (.ok true, c1)
  else (.ok false, c)

/-- Source lines 156-180. -/
def ActionButtonRenameGroup (env : Env P U) (message : CGUIMessage) (c : Ctx P U) : Res P U Bool :=
  if message.senderId = BUTTON_RENAMEGROUP then
    if c.dlg.m_selectedGroup.isNone then (.ok false, c)
    else
      match c.dlg.m_selectedGroup with
      | none => (.error Fault.nullSelectedGroup, c)
      | some g =>
        let kb := env.ShowAndGetInput c.gui (env.GroupName c.pvr g) (env.localize 19139)
        let c1 : Ctx P U := { c with gui := kb.1, log := c.log ++ [Event.showAndGetInput] }
        if kb.2.1 then
          if kb.2.2 ≠ "" then
            let c2 : Ctx P U :=
              { c1 with pvr := env.SetGroupName c1.pvr g kb.2.2
                        log := c1.log ++ [Event.setGroupName g kb.2.2] }
            (Update env c2).thenReturn true
          else (.ok true, c1)
        else (.ok true, c1)
  else (.ok false, c)

/-- Source lines 182-209. -/
def ActionButtonUngroupedChannels (env : Env P U) (message : CGUIMessage) (c : Ctx P U) :
    Res P U Bool :=
  if env.HasControl c.gui View.ungrouped message.senderId then
    let c1 : Ctx P U :=
      { c with dlg := { c.dlg with m_iSelectedUngroupedChannel :=
                          env.GetSelectedItem c.gui View.ungrouped } }
    if message.param1 = env.ACTION_SELECT_ITEM ∨ message.param1 = env.ACTION_MOUSE_LEFT_CLICK then
      if CFileItemList.GetFolderCount c1.dlg.m_channelGroups = 0 then
        (.ok true, { c1 with gui := env.ShowOKDialogText c1.gui 19033 19137
                             log := c1.log ++ [Event.showOKDialogText 19033 19137] })
      else if CFileItemList.GetFileCount c1.dlg.m_ungroupedChannels > 0 then
        let pItemChannel :=
          CFileItemList.Get c1.dlg.m_ungroupedChannels c1.dlg.m_iSelectedUngroupedChannel
        match c1.dlg.m_selectedGroup with
        | none => (.error Fault.nullSelectedGroup, c1)
        | some g =>
          match pItemChannel with
          | none => (.error Fault.nullListItem, c1)
          | some item =>
            let ag := env.AddToGroup c1.pvr g item.channel
            let c2 : Ctx P U :=
              { c1 with pvr := ag.1, log := c1.log ++ [Event.addToGroup g item.channel] }
            if ag.2 then (Update env c2).thenReturn true
            else (.ok true, c2)
      else (.ok true, c1)
    else (.ok true, c1)
  else (.ok false, c)

/-- Source lines 211-234. -/
def ActionButtonGroupMembers (env : Env P U) (message : CGUIMessage) (c : Ctx P U) :
    Res P U Bool :=
  if env.HasControl c.gui View.members message.senderId then
    let c1 : Ctx P U :=
      { c with dlg := { c.dlg with m_iSelectedGroupMember :=
                          env.GetSelectedItem c.gui View.members } }
    if message.param1 = env.ACTION_SELECT_ITEM ∨ message.param1 = env.ACTION_MOUSE_LEFT_CLICK then
      if c1.dlg.m_selectedGroup.isSome ∧ CFileItemList.GetFileCount c1.dlg.m_groupMembers > 0 then
        let pItemChannel :=
          CFileItemList.Get c1.dlg.m_groupMembers c1.dlg.m_iSelectedGroupMember
        match c1.dlg.m_selectedGroup with
        | none => (.error Fault.nullSelectedGroup, c1)
        | some g =>
          match pItemChannel with
          | none => (.error Fault.nullListItem, c1)
          | some item =>
            let c2 : Ctx P U :=
              { c1 with pvr := env.RemoveFromGroup c1.pvr g item.channel
                        log := c1.log ++ [Event.removeFromGroup g item.channel] }
            (Update env c2).thenReturn true
      else (.ok true, c1)
    else (.ok true, c1)
  else (.ok false, c)

/-- Source lines 236-254. -/
def ActionButtonChannelGroups (env : Env P U) (message : CGUIMessage) (c : Ctx P U) :
    Res P U Bool :=
  if env.HasControl c.gui View.groups message.senderId then
    if message.param1 = env.ACTION_SELECT_ITEM ∨ message.param1 = env.ACTION_MOUSE_LEFT_CLICK then
      let c1 : Ctx P U :=
        { c with dlg := { c.dlg with m_iSelectedChannelGroup :=
                            env.GetSelectedItem c.gui View.groups } }
      (Update env c1).thenReturn true
    else (.ok true, c)
  else (.ok false, c)

/-- Source lines 256-273. -/
def ActionButtonHideGroup (env : Env P U) (message : CGUIMessage) (c : Ctx P U) : Res P U Bool :=
  if message.senderId = BUTTON_HIDE_GROUP ∧ c.dlg.m_selectedGroup.isSome then
    if env.hasControlPtr c.gui message.senderId then
      match c.dlg.m_selectedGroup with
      | none => (.error Fault.nullSelectedGroup, c)
      | some g =>
        let c1 : Ctx P U :=
          { c with pvr := env.SetHidden c.pvr g (env.IsSelected c.gui message.senderId)
                   log := c.log ++ [Event.setHidden g (env.IsSelected c.gui message.senderId)] }
        (Update env c1).thenReturn true
    else (.ok true, c)
  else (.ok false, c)

/-- Source lines 275-288. -/
def ActionButtonToggleRadioTV (env : Env P U) (message : CGUIMessage) (c : Ctx P U) :
    Res P U Bool :=
  if message.senderId = BUTTON_TOGGLE_RADIO_TV then
    let c1 := (PersistChanges env c).2
    let c2 := SetRadio c1 (!c1.dlg.m_bIsRadio)
    (Update env c2).thenReturn true
  else (.ok false, c)

/-- Source lines 290-301. -/
def OnMessageClick (env : Env P U) (message : CGUIMessage) (c : Ctx P U) : Res P U Bool :=
  (ActionButtonOk env message c).orElse fun c =>
  (ActionButtonNewGroup env message c).orElse fun c =>
  (ActionButtonDeleteGroup env message c).orElse fun c =>
  (ActionButtonRenameGroup env message c).orElse fun c =>
  (ActionButtonUngroupedChannels env message c).orElse fun c =>
  (ActionButtonGroupMembers env message c).orElse fun c =>
  (ActionButtonChannelGroups env message c).orElse fun c =>
  (ActionButtonHideGroup env message c).orElse fun c =>
  ActionButtonToggleRadioTV env message c

/-- Source lines 303-317. -/
def OnMessage (env : Env P U) (message : CGUIMessage) (c : Ctx P U) : Res P U Bool :=
  let r : Res P U Bool :=
    if message.message = env.GUI_MSG_CLICKED then OnMessageClick env message c
    else (.ok false, c)
  match r.1 with
  | .error e => (.error e, r.2)
  | .ok _ =>
    (.ok (env.baseOnMessage r.2.gui message).2,
     { r.2 with gui := (env.baseOnMessage r.2.gui message).1 })

/-- Source lines 319-326. -/
def OnInitWindow (env : Env P U) (c : Ctx P U) : Res P U Unit :=
  let c1 : Ctx P U := { c with gui := env.baseOnInitWindow c.gui }
  Update env
    { c1 with dlg := { c1.dlg with m_iSelectedUngroupedChannel := 0
                                   m_iSelectedGroupMember := 0
                                   m_iSelectedChannelGroup := 0 } }

/-- Source lines 328-332. -/
def OnDeinitWindow (env : Env P U) (nextWindowID : Int) (c : Ctx P U) : Res P U Unit :=
  let c1 := Clear env c
  (.ok (), { c1 with gui := env.baseOnDeinitWindow c1.gui nextWindowID })

/-! ## Definitions used to state the properties -/

/-- Source lines 368-373: the entry of the freshly fetched group list at the
index that the channel-group view reports as selected, as `Update` started in
context `c` obtains it (`pItem`, possibly null). -/
def entryAtSelection (env : Env P U) (c : Ctx P U) : Option CFileItem :=
  CFileItemList.Get (env.GetGroupList c.pvr c.dlg.m_bIsRadio)
    (env.GetSelectedItem (guiAtSelection env c) View.groups)

/-- The events that `Update` logs after its group-list query: the
`SetPlayingGroup` call when the selected group resolves. -/
def updateTail (env : Env P U) (c : Ctx P U) : List Event :=
  match entryAtSelection env c with
  | none => []
  | some pItem =>
    match env.GetByName c.pvr c.dlg.m_bIsRadio pItem.m_strTitle with
    | none => []
    | some g => [Event.setPlayingGroup g]

/-- The events logged by a call that started in context `c` and ended with `r`. -/
def newEvents {α : Type} (c : Ctx P U) (r : Res P U α) : List Event :=
  r.2.log.drop c.log.length

/-- The events of a trace that come before its first refresh. -/
def beforeRefresh (evs : List Event) : List Event :=
  evs.takeWhile fun e => e != Event.update

/-- While no group is selected, the two channel lists are empty. -/
def ListsGuarded (d : Dialog) : Prop :=
  d.m_selectedGroup = none → d.m_ungroupedChannels = [] ∧ d.m_groupMembers = []

/-- The nine handlers chained by `OnMessageClick`, in source order. -/
inductive Handler where
  | Ok
  | NewGroup
  | DeleteGroup
  | RenameGroup
  | UngroupedChannels
  | GroupMembers
  | ChannelGroups
  | HideGroup
  | ToggleRadioTV
  deriving DecidableEq, Repr

/-- The member function behind each handler name. -/
def Handler.run (h : Handler) (env : Env P U) (message : CGUIMessage) (c : Ctx P U) :
    Res P U Bool :=
  match h with
  | .Ok => ActionButtonOk env message c
  | .NewGroup => ActionButtonNewGroup env message c
  | .DeleteGroup => ActionButtonDeleteGroup env message c
  | .RenameGroup => ActionButtonRenameGroup env message c
  | .UngroupedChannels => ActionButtonUngroupedChannels env message c
  | .GroupMembers => ActionButtonGroupMembers env message c
  | .ChannelGroups => ActionButtonChannelGroups env message c
  | .HideGroup => ActionButtonHideGroup env message c
  | .ToggleRadioTV => ActionButtonToggleRadioTV env message c

/-- The handlers in the order in which `OnMessageClick` chains them. -/
def allHandlers : List Handler :=
  [.Ok, .NewGroup, .DeleteGroup, .RenameGroup, .UngroupedChannels, .GroupMembers,
   .ChannelGroups, .HideGroup, .ToggleRadioTV]

/-- A short-circuit `||` chain over a list of handlers, in the order of the list. -/
def chain (env : Env P U) (message : CGUIMessage) : List Handler → Ctx P U → Res P U Bool
  | [], c => (.ok false, c)
  | h :: hs, c => (h.run env message c).orElse (chain env message hs)

/-- The control condition that guards the body of each handler (for
`ActionButtonHideGroup` the sender half of its combined test). -/
def Handler.controlCondition (h : Handler) (env : Env P U) (message : CGUIMessage)
    (c : Ctx P U) : Prop :=
  match h with
  | .Ok => message.senderId = BUTTON_OK
  | .NewGroup => message.senderId = BUTTON_NEWGROUP
  | .DeleteGroup => message.senderId = BUTTON_DELGROUP
  | .RenameGroup => message.senderId = BUTTON_RENAMEGROUP
  | .UngroupedChannels => env.HasControl c.gui View.ungrouped message.senderId = true
  | .GroupMembers => env.HasControl c.gui View.members message.senderId = true
  | .ChannelGroups => env.HasControl c.gui View.groups message.senderId = true
  | .HideGroup => message.senderId = BUTTON_HIDE_GROUP
  | .ToggleRadioTV => message.senderId = BUTTON_TOGGLE_RADIO_TV

/-- The condition under which a handler gets past its early `return bReturn`
exits and reaches `bReturn = true`. -/
def Handler.accepts (h : Handler) (env : Env P U) (message : CGUIMessage) (c : Ctx P U) : Prop :=
  match h with
  | .DeleteGroup => message.senderId = BUTTON_DELGROUP ∧ c.dlg.m_selectedGroup.isSome = true ∧
      env.hasYesNoDialog c.gui = true
  | .RenameGroup => message.senderId = BUTTON_RENAMEGROUP ∧ c.dlg.m_selectedGroup.isSome = true
  | .HideGroup => message.senderId = BUTTON_HIDE_GROUP ∧ c.dlg.m_selectedGroup.isSome = true
  | h => h.controlCondition env message c

/-- The container call that belongs to each handler: `PersistAll` for OK and
for the radio/TV toggle, `AddGroup`, `DeleteGroup`, `SetGroupName`,
`AddToGroup`, `RemoveFromGroup` and `SetHidden` for the others;
`ActionButtonChannelGroups` makes no container call. -/
def Handler.ownCall : Handler → Event → Bool
  | .Ok, .persistAll _ => true
  | .NewGroup, .addGroup _ _ => true
  | .DeleteGroup, .deleteGroup _ _ => true
  | .RenameGroup, .setGroupName _ _ => true
  | .UngroupedChannels, .addToGroup _ _ => true
  | .GroupMembers, .removeFromGroup _ _ => true
  | .HideGroup, .setHidden _ _ => true
  | .ToggleRadioTV, .persistAll _ => true
  | _, _ => false

/-- The clicks for which one of the nine handlers reaches `bReturn = true`:
the sender is a control of one of the three views, is `BUTTON_OK`,
`BUTTON_NEWGROUP` or `BUTTON_TOGGLE_RADIO_TV`, is `BUTTON_DELGROUP` while a group
is selected and the yes/no dialog exists, or is `BUTTON_RENAMEGROUP` or
`BUTTON_HIDE_GROUP` while a group is selected. -/
def clickAccepted (env : Env P U) (message : CGUIMessage) (c : Ctx P U) : Prop :=
  env.HasControl c.gui View.ungrouped message.senderId = true ∨
  env.HasControl c.gui View.members message.senderId = true ∨
  env.HasControl c.gui View.groups message.senderId = true ∨
  message.senderId = BUTTON_OK ∨
  message.senderId = BUTTON_NEWGROUP ∨
  message.senderId = BUTTON_TOGGLE_RADIO_TV ∨
  (message.senderId = BUTTON_DELGROUP ∧ c.dlg.m_selectedGroup.isSome = true ∧
    env.hasYesNoDialog c.gui = true) ∨
  (message.senderId = BUTTON_RENAMEGROUP ∧ c.dlg.m_selectedGroup.isSome = true) ∨
  (message.senderId = BUTTON_HIDE_GROUP ∧ c.dlg.m_selectedGroup.isSome = true)

/-- The three list views own only the controls 11, 12 and 13 respectively
(source lines 338-348 add exactly these controls). -/
def viewsOwnOnlyLists (env : Env P U) (u : U) : Prop :=
  ∀ id,
    (env.HasControl u View.ungrouped id = true → id = CONTROL_LIST_CHANNELS_LEFT) ∧
    (env.HasControl u View.members id = true → id = CONTROL_LIST_CHANNELS_RIGHT) ∧
    (env.HasControl u View.groups id = true → id = CONTROL_LIST_CHANNEL_GROUPS)

/-- The dialog states that can be reached from construction by window
initialisation and deinitialisation, refreshes and messages that return, with
the PVR subsystem and the GUI free to change in between. -/
inductive Reachable (env : Env P U) : Ctx P U → Prop where
  | construct (p : P) (u : U) : Reachable env (construct p u)
  | external (c : Ctx P U) (p : P) (u : U) :
      Reachable env c → Reachable env { c with pvr := p, gui := u }
  | initWindow (c : Ctx P U) :
      Reachable env c → (OnInitWindow env c).1 = .ok () → Reachable env (OnInitWindow env c).2
  | deinitWindow (c : Ctx P U) (nextWindowID : Int) :
      Reachable env c → Reachable env (OnDeinitWindow env nextWindowID c).2
  | update (c : Ctx P U) :
      Reachable env c → (Update env c).1 = .ok () → Reachable env (Update env c).2
  | message (c : Ctx P U) (m : CGUIMessage) (b : Bool) :
      Reachable env c → (OnMessage env m c).1 = .ok b → Reachable env (OnMessage env m c).2

/-- The action test `iAction == ACTION_SELECT_ITEM || iAction == ACTION_MOUSE_LEFT_CLICK`
of the three list handlers. -/
def selectAction (env : Env P U) (message : CGUIMessage) : Prop :=
  message.param1 = env.ACTION_SELECT_ITEM ∨ message.param1 = env.ACTION_MOUSE_LEFT_CLICK

/-- The guards that a handler, once its control condition holds, passes before
it makes its container call: none for OK and the radio/TV toggle; a confirmed,
non-empty name for a new group and for renaming the selected group; a selected
group, the yes/no dialog and a confirmation for deleting; a select action on an
existing entry of a non-empty list, with a selected group (and at least one
group in the group list for the ungrouped channels); a selected group and the
radio button control for hiding.  `ActionButtonChannelGroups` makes no
container call. -/
def Handler.callGuard (h : Handler) (env : Env P U) (message : CGUIMessage) (c : Ctx P U) :
    Prop :=
  match h with
  | .Ok => True
  | .NewGroup =>
      (env.ShowAndGetInput c.gui "" (env.localize 19139)).2.1 = true ∧
      (env.ShowAndGetInput c.gui "" (env.localize 19139)).2.2 ≠ ""
  | .DeleteGroup =>
      ∃ g, c.dlg.m_selectedGroup = some g ∧ env.hasYesNoDialog c.gui = true ∧
        (env.yesNoOpen c.gui (env.GroupName c.pvr g)).2 = true
  | .RenameGroup =>
      ∃ g, c.dlg.m_selectedGroup = some g ∧
        (env.ShowAndGetInput c.gui (env.GroupName c.pvr g) (env.localize 19139)).2.1 = true ∧
        (env.ShowAndGetInput c.gui (env.GroupName c.pvr g) (env.localize 19139)).2.2 ≠ ""
  | .UngroupedChannels =>
      selectAction env message ∧
      CFileItemList.GetFolderCount c.dlg.m_channelGroups ≠ 0 ∧
      CFileItemList.GetFileCount c.dlg.m_ungroupedChannels > 0 ∧
      ∃ g item, c.dlg.m_selectedGroup = some g ∧
        CFileItemList.Get c.dlg.m_ungroupedChannels
          (env.GetSelectedItem c.gui View.ungrouped) = some item
  | .GroupMembers =>
      selectAction env message ∧
      CFileItemList.GetFileCount c.dlg.m_groupMembers > 0 ∧
      ∃ g item, c.dlg.m_selectedGroup = some g ∧
        CFileItemList.Get c.dlg.m_groupMembers
          (env.GetSelectedItem c.gui View.members) = some item
  | .ChannelGroups => False
  | .HideGroup =>
      ∃ g, c.dlg.m_selectedGroup = some g ∧ env.hasControlPtr c.gui message.senderId = true
  | .ToggleRadioTV => True

/-- The guards under which a handler, once its control condition holds, reaches
its call to `Update`: never for OK; always for the radio/TV toggle; a select
action for the channel-group list; the call guard for renaming, removing a
member and hiding; and the call guard together with a reported success for
`AddGroup` (whose new group must then resolve by name), `DeleteGroup` and
`AddToGroup`. -/
def Handler.refreshGuard (h : Handler) (env : Env P U) (message : CGUIMessage) (c : Ctx P U) :
    Prop :=
  match h with
  | .Ok => False
  | .NewGroup =>
      (env.ShowAndGetInput c.gui "" (env.localize 19139)).2.1 = true ∧
      (env.ShowAndGetInput c.gui "" (env.localize 19139)).2.2 ≠ "" ∧
      (env.AddGroup c.pvr c.dlg.m_bIsRadio
        (env.ShowAndGetInput c.gui "" (env.localize 19139)).2.2).2 = true ∧
      (env.GetByName
        (env.AddGroup c.pvr c.dlg.m_bIsRadio
          (env.ShowAndGetInput c.gui "" (env.localize 19139)).2.2).1
        c.dlg.m_bIsRadio (env.ShowAndGetInput c.gui "" (env.localize 19139)).2.2).isSome = true
  | .DeleteGroup =>
      ∃ g, c.dlg.m_selectedGroup = some g ∧ env.hasYesNoDialog c.gui = true ∧
        (env.yesNoOpen c.gui (env.GroupName c.pvr g)).2 = true ∧
        (env.DeleteGroup c.pvr c.dlg.m_bIsRadio g).2 = true
  | .UngroupedChannels =>
      selectAction env message ∧
      CFileItemList.GetFolderCount c.dlg.m_channelGroups ≠ 0 ∧
      CFileItemList.GetFileCount c.dlg.m_ungroupedChannels > 0 ∧
      ∃ g item, c.dlg.m_selectedGroup = some g ∧
        CFileItemList.Get c.dlg.m_ungroupedChannels
          (env.GetSelectedItem c.gui View.ungrouped) = some item ∧
        (env.AddToGroup c.pvr g item.channel).2 = true
  | .ChannelGroups => selectAction env message
  | .ToggleRadioTV => True
  | h => h.callGuard env message c

/-- The PVR state that a handler's container call leaves behind when its call
guard holds (the state itself otherwise). -/
def Handler.pvrAfterCall (h : Handler) (env : Env P U) (message : CGUIMessage) (c : Ctx P U) :
    P :=
  match h with
  | .Ok => (env.PersistAll c.pvr c.dlg.m_bIsRadio).1
  | .ToggleRadioTV => (env.PersistAll c.pvr c.dlg.m_bIsRadio).1
  | .NewGroup =>
      match env.GetByName
          (env.AddGroup c.pvr c.dlg.m_bIsRadio
            (env.ShowAndGetInput c.gui "" (env.localize 19139)).2.2).1
          c.dlg.m_bIsRadio (env.ShowAndGetInput c.gui "" (env.localize 19139)).2.2,
        (env.AddGroup c.pvr c.dlg.m_bIsRadio
            (env.ShowAndGetInput c.gui "" (env.localize 19139)).2.2).2 with
      | some g, true =>
          env.SetGroupType
            (env.AddGroup c.pvr c.dlg.m_bIsRadio
              (env.ShowAndGetInput c.gui "" (env.localize 19139)).2.2).1
            g env.PVR_GROUP_TYPE_USER_DEFINED
      | _, _ =>
          (env.AddGroup c.pvr c.dlg.m_bIsRadio
            (env.ShowAndGetInput c.gui "" (env.localize 19139)).2.2).1
  | .DeleteGroup =>
      match c.dlg.m_selectedGroup with
      | some g => (env.DeleteGroup c.pvr c.dlg.m_bIsRadio g).1
      | none => c.pvr
  | .RenameGroup =>
      match c.dlg.m_selectedGroup with
      | some g =>
          env.SetGroupName c.pvr g
            (env.ShowAndGetInput c.gui (env.GroupName c.pvr g) (env.localize 19139)).2.2
      | none => c.pvr
  | .UngroupedChannels =>
      match c.dlg.m_selectedGroup,
        CFileItemList.Get c.dlg.m_ungroupedChannels
          (env.GetSelectedItem c.gui View.ungrouped) with
      | some g, some item => (env.AddToGroup c.pvr g item.channel).1
      | _, _ => c.pvr
  | .GroupMembers =>
      match c.dlg.m_selectedGroup,
        CFileItemList.Get c.dlg.m_groupMembers (env.GetSelectedItem c.gui View.members) with
      | some g, some item => env.RemoveFromGroup c.pvr g item.channel
      | _, _ => c.pvr
  | .ChannelGroups => c.pvr
  | .HideGroup =>
      match c.dlg.m_selectedGroup with
      | some g => env.SetHidden c.pvr g (env.IsSelected c.gui message.senderId)
      | none => c.pvr

/-- What a handler does for a click that satisfies its control condition: it
only appends to the log; it makes its container call exactly under its call
guard and refreshes exactly under its refresh guard, at most once; a refresh
comes after the container call (`ActionButtonChannelGroups` has none) and reads
the group list from the PVR state that the call left behind, in the mode that
the handler left behind; without a refresh the PVR state is the one the call
left behind, or the original one when no call was made; only the radio/TV
toggle changes the mode; and `ActionButtonOk` persists, closes and returns
true. -/
def HandlerContract (env : Env P U) (h : Handler) (message : CGUIMessage) (c : Ctx P U) :
    Prop :=
    (h.run env message c).2.log = c.log ++ newEvents c (h.run env message c) ∧
    ((∃ e ∈ newEvents c (h.run env message c), h.ownCall e = true) ↔
      h.callGuard env message c) ∧
    (Event.update ∈ newEvents c (h.run env message c) ↔ h.refreshGuard env message c) ∧
    (newEvents c (h.run env message c)).count Event.update ≤ 1 ∧
    (h.refreshGuard env message c →
      (h = Handler.ChannelGroups ∨
        (beforeRefresh (newEvents c (h.run env message c))).any h.ownCall = true) ∧
      (h.run env message c).2.dlg.m_channelGroups =
        env.GetGroupList (h.pvrAfterCall env message c)
          (h.run env message c).2.dlg.m_bIsRadio) ∧
    (¬ h.refreshGuard env message c →
      (h.callGuard env message c →
        (h.run env message c).2.pvr = h.pvrAfterCall env message c) ∧
      (¬ h.callGuard env message c → (h.run env message c).2.pvr = c.pvr)) ∧
    ((h.run env message c).2.dlg.m_bIsRadio =
      if h = Handler.ToggleRadioTV then !c.dlg.m_bIsRadio else c.dlg.m_bIsRadio) ∧
    (h = Handler.Ok →
      newEvents c (h.run env message c) = [Event.persistAll c.dlg.m_bIsRadio, Event.close] ∧
      (h.run env message c).2.gui = env.Close c.gui ∧
      (h.run env message c).1 = .ok true)

/-! ## A concrete environment -/

/-- The answers of a stateless environment. -/
structure Script where
  groupList : CFileItemList
  byName : Option GroupPtr
  nonMembers : CFileItemList
  members : CFileItemList
  selected : Int
  kbConfirmed : Bool
  kbText : String
  hasYesNo : Bool
  yesNoConfirmed : Bool
  hasButton : Bool
  callsSucceed : Bool

/-- An environment that keeps no state and answers every call from a fixed
script: the views own the controls 11, 12 and 13 and all report the scripted
selected item. -/
def scripted (s : Script) : Env Unit Unit where
  ACTION_SELECT_ITEM := 7
  ACTION_MOUSE_LEFT_CLICK := 100
  GUI_MSG_CLICKED := 5
  PVR_GROUP_TYPE_USER_DEFINED := 2
  localize := fun _ => ""
  PersistAll := fun _ _ => ((), s.callsSucceed)
  AddGroup := fun _ _ _ => ((), s.callsSucceed)
  DeleteGroup := fun _ _ _ => ((), s.callsSucceed)
  GetByName := fun _ _ _ => s.byName
  GetGroupList := fun _ _ => s.groupList
  Size := fun _ _ => s.groupList.length
  SetGroupType := fun _ _ _ => ()
  GroupName := fun _ _ => "Favourites"
  SetGroupName := fun _ _ _ => ()
  AddToGroup := fun _ _ _ => ((), s.callsSucceed)
  RemoveFromGroup := fun _ _ _ => ()
  SetHidden := fun _ _ _ => ()
  IsHidden := fun _ _ => false
  IsInternalGroup := fun _ _ => false
  GetMembers := fun _ _ b => if b then s.members else s.nonMembers
  SetPlayingGroup := fun _ _ => ()
  ShowAndGetInput := fun _ _ _ => ((), s.kbConfirmed, s.kbText)
  hasYesNoDialog := fun _ => s.hasYesNo
  yesNoOpen := fun _ _ => ((), s.yesNoConfirmed)
  ShowOKDialogText := fun _ _ _ => ()
  Close := fun _ => ()
  HasControl := fun _ v id =>
    match v with
    | .ungrouped => id == CONTROL_LIST_CHANNELS_LEFT
    | .members => id == CONTROL_LIST_CHANNELS_RIGHT
    | .groups => id == CONTROL_LIST_CHANNEL_GROUPS
  GetSelectedItem := fun _ _ => s.selected
  SetSelectedItem := fun _ _ _ => ()
  SetItems := fun _ _ _ => ()
  SetCurrentView := fun _ _ _ => ()
  ViewClear := fun _ _ => ()
  hasControlPtr := fun _ _ => s.hasButton
  IsSelected := fun _ _ => true
  setControlLabel := fun _ _ _ => ()
  setControlSelected := fun _ _ _ => ()
  baseOnInitWindow := fun _ => ()
  baseOnDeinitWindow := fun _ _ => ()
  baseOnMessage := fun _ _ => ((), true)

/-- A script with one group "Favourites" that resolves to group 1, one channel
outside the group and one inside, and a user who confirms everything. -/
def oneGroup : Script where
  groupList := [{ m_strTitle := "Favourites", m_bIsFolder := true, channel := none }]
  byName := some 1
  nonMembers := [{ m_strTitle := "BBC", m_bIsFolder := false, channel := some 7 }]
  members := [{ m_strTitle := "ARD", m_bIsFolder := false, channel := some 8 }]
  selected := 0
  kbConfirmed := true
  kbText := "News"
  hasYesNo := true
  yesNoConfirmed := true
  hasButton := true
  callsSucceed := true

/-- The script of a container that has no group at all. -/
def noGroups : Script :=
  { oneGroup with groupList := [], byName := none, nonMembers := [], members := [] }

/-- A click message from a control. -/
def click (senderId : Nat) (action : Int) : CGUIMessage :=
  { message := 5, senderId := senderId, param1 := action }

/-- The script of a user who declines the yes/no dialog. -/
def declined : Script := { oneGroup with yesNoConfirmed := false }

/-- The script of a view that reports no selected item. -/
def noSelection : Script := { oneGroup with selected := -1 }

/-- An environment whose TV container has the one group of `oneGroup` (which
resolves to group 1) and whose radio container has no group. -/
def tvOnly : Env Unit Unit :=
  { scripted oneGroup with
    GetGroupList := fun _ bRadio => if bRadio then [] else oneGroup.groupList
    GetByName := fun _ bRadio _ => if bRadio then none else some 1
    Size := fun _ bRadio => if bRadio then 0 else 1 }

/-! ## Basic facts about the result combinators -/

theorem thenReturn_snd (r : Res P U Unit) (b : Bool) : (r.thenReturn b).2 = r.2 := by
  unfold Res.thenReturn; split <;> rfl

theorem thenReturn_fst (r : Res P U Unit) (b : Bool) :
    (r.thenReturn b).1 = r.1.map fun _ => b := by
  unfold Res.thenReturn; split <;> simp_all [Except.map]

theorem thenReturn_fst_ne (r : Res P U Unit) (b : Bool) (e : Fault) (h : r.1 ≠ .error e) :
    (r.thenReturn b).1 ≠ .error e := by
  unfold Res.thenReturn; split <;> simp_all

theorem thenReturn_true_ne_false (r : Res P U Unit) : (r.thenReturn true).1 ≠ .ok false := by
  unfold Res.thenReturn; split <;> simp

theorem orElse_false (r : Res P U Bool) : (r.orElse fun c => (.ok false, c)) = r := by
  obtain ⟨v, c⟩ := r
  unfold Res.orElse
  rcases v with e | b
  · rfl
  · cases b <;> rfl

theorem orElse_of_ne_false (r : Res P U Bool) (k : Ctx P U → Res P U Bool)
    (h : r.1 ≠ .ok false) : r.orElse k = r := by
  obtain ⟨v, c⟩ := r
  unfold Res.orElse
  rcases v with e | b
  · rfl
  · cases b
    · exact absurd rfl h
    · rfl

/-! ## Facts about `Update` -/

theorem Update_fst_of_none (env : Env P U) (c : Ctx P U) (h : entryAtSelection env c = none) :
    (Update env c).1 = .error Fault.nullListItem := by
  simp only [entryAtSelection, guiAtSelection, Clear] at h
  simp only [Update, Clear, List.nil_append, h]

theorem Update_fst_of_some (env : Env P U) (c : Ctx P U) (pItem : CFileItem)
    (h : entryAtSelection env c = some pItem) : (Update env c).1 = .ok () := by
  simp only [entryAtSelection, guiAtSelection, Clear] at h
  simp only [Update, Clear, List.nil_append, h]
  cases hg : env.GetByName c.pvr c.dlg.m_bIsRadio pItem.m_strTitle <;> simp

theorem Update_fst (env : Env P U) (c : Ctx P U) :
    (Update env c).1 = .ok () ∨ (Update env c).1 = .error Fault.nullListItem := by
  cases h : entryAtSelection env c with
  | none => exact Or.inr (Update_fst_of_none env c h)
  | some pItem => exact Or.inl (Update_fst_of_some env c pItem h)

theorem Update_no_null_group (env : Env P U) (c : Ctx P U) :
    (Update env c).1 ≠ .error Fault.nullSelectedGroup := by
  rcases Update_fst env c with h | h <;> simp [h]

theorem Update_dlg_kept (env : Env P U) (c : Ctx P U) :
    (Update env c).2.dlg.m_iSelectedUngroupedChannel = c.dlg.m_iSelectedUngroupedChannel ∧
    (Update env c).2.dlg.m_iSelectedGroupMember = c.dlg.m_iSelectedGroupMember ∧
    (Update env c).2.dlg.m_iSelectedChannelGroup = c.dlg.m_iSelectedChannelGroup ∧
    (Update env c).2.dlg.m_bIsRadio = c.dlg.m_bIsRadio ∧
    (Update env c).2.dlg.propIsRadio = c.dlg.propIsRadio := by
  simp only [Update, Clear, List.nil_append]
  split
  · simp
  · rename_i pItem h
    cases hg : env.GetByName c.pvr c.dlg.m_bIsRadio pItem.m_strTitle <;> simp

theorem Update_guarded (env : Env P U) (c : Ctx P U) : ListsGuarded (Update env c).2.dlg := by
  simp only [Update, Clear, List.nil_append, ListsGuarded]
  split
  · simp
  · rename_i pItem h
    cases hg : env.GetByName c.pvr c.dlg.m_bIsRadio pItem.m_strTitle <;> simp [hg]

theorem Update_log_eq (env : Env P U) (c : Ctx P U) :
    (Update env c).2.log =
      c.log ++ Event.update :: Event.getGroupList c.dlg.m_bIsRadio :: updateTail env c := by
  unfold updateTail
  cases h : entryAtSelection env c with
  | none =>
    simp only [entryAtSelection, guiAtSelection, Clear] at h
    simp [Update, Clear, h]
  | some pItem =>
    simp only [entryAtSelection, guiAtSelection, Clear] at h
    simp only [Update, Clear, List.nil_append, h]
    cases hg : env.GetByName c.pvr c.dlg.m_bIsRadio pItem.m_strTitle <;> simp

theorem updateTail_cases (env : Env P U) (c : Ctx P U) :
    updateTail env c = [] ∨ ∃ g, updateTail env c = [Event.setPlayingGroup g] := by
  unfold updateTail
  split
  · exact Or.inl rfl
  · split
    · exact Or.inl rfl
    · exact Or.inr ⟨_, rfl⟩

theorem mem_updateTail (env : Env P U) (c : Ctx P U) (e : Event) (h : e ∈ updateTail env c) :
    ∃ g, e = Event.setPlayingGroup g := by
  rcases updateTail_cases env c with h0 | ⟨g, h1⟩
  · simp [h0] at h
  · exact ⟨g, by simpa [h1] using h⟩

theorem update_not_mem_updateTail (env : Env P U) (c : Ctx P U) :
    Event.update ∉ updateTail env c := fun h => by
  obtain ⟨g, hg⟩ := mem_updateTail env c _ h
  cases hg

theorem deleteGroup_not_mem_updateTail (env : Env P U) (c : Ctx P U) (b : Bool) (g : GroupPtr) :
    Event.deleteGroup b g ∉ updateTail env c := fun h => by
  obtain ⟨g, hg⟩ := mem_updateTail env c _ h
  cases hg

theorem count_update_updateTail (env : Env P U) (c : Ctx P U) :
    (updateTail env c).count Event.update = 0 :=
  List.count_eq_zero_of_not_mem (update_not_mem_updateTail env c)

/-! ## Facts about the handlers and their chain -/

theorem run_guarded (env : Env P U) (h : Handler) (m : CGUIMessage) (c : Ctx P U)
    (hc : ListsGuarded c.dlg) : ListsGuarded (h.run env m c).2.dlg := by
  cases h <;>
    simp only [Handler.run, ActionButtonOk, ActionButtonNewGroup, ActionButtonDeleteGroup,
      ActionButtonRenameGroup, ActionButtonUngroupedChannels, ActionButtonGroupMembers,
      ActionButtonChannelGroups, ActionButtonHideGroup, ActionButtonToggleRadioTV,
      PersistChanges, SetRadio] <;>
    (repeat' split) <;>
    first
      | (rw [thenReturn_snd]; exact Update_guarded _ _)
      | simpa [ListsGuarded] using hc

theorem run_no_null_group (env : Env P U) (h : Handler) (m : CGUIMessage) (c : Ctx P U)
    (hc : ListsGuarded c.dlg) : (h.run env m c).1 ≠ .error Fault.nullSelectedGroup := by
  cases h <;>
    simp only [Handler.run, ActionButtonOk, ActionButtonNewGroup, ActionButtonDeleteGroup,
      ActionButtonRenameGroup, ActionButtonUngroupedChannels, ActionButtonGroupMembers,
      ActionButtonChannelGroups, ActionButtonHideGroup, ActionButtonToggleRadioTV,
      PersistChanges, SetRadio] <;>
    (repeat' split) <;>
    first
      | exact thenReturn_fst_ne _ _ _ (Update_no_null_group env _)
      | (simp; done)
      | simp_all [ListsGuarded, CFileItemList.GetFileCount]

theorem OnMessageClick_eq_chain (env : Env P U) (m : CGUIMessage) (c : Ctx P U) :
    OnMessageClick env m c = chain env m allHandlers c := by
  simp only [allHandlers, chain, Handler.run, OnMessageClick, orElse_false]

theorem chain_guarded (env : Env P U) (m : CGUIMessage) (l : List Handler) :
    ∀ c : Ctx P U, ListsGuarded c.dlg →
      ListsGuarded (chain env m l c).2.dlg ∧
      (chain env m l c).1 ≠ .error Fault.nullSelectedGroup := by
  induction l with
  | nil => intro c hc; exact ⟨hc, by simp [chain]⟩
  | cons h hs ih =>
    intro c hc
    have h1 := run_guarded env h m c hc
    have h2 := run_no_null_group env h m c hc
    simp only [chain, Res.orElse]
    split
    · rename_i e he
      refine ⟨h1, ?_⟩
      intro hh
      simp only [Except.error.injEq] at hh
      rw [hh] at he
      exact h2 he
    · exact ⟨h1, by simp⟩
    · exact ih _ h1

theorem OnMessage_guarded (env : Env P U) (m : CGUIMessage) (c : Ctx P U)
    (hc : ListsGuarded c.dlg) :
    ListsGuarded (OnMessage env m c).2.dlg ∧
    (OnMessage env m c).1 ≠ .error Fault.nullSelectedGroup := by
  have hk := chain_guarded env m allHandlers c hc
  rw [← OnMessageClick_eq_chain] at hk
  unfold OnMessage
  by_cases hm : m.message = env.GUI_MSG_CLICKED
  · simp only [hm, if_true]
    split
    · rename_i e he
      refine ⟨hk.1, ?_⟩
      intro hh
      simp only [Except.error.injEq] at hh
      rw [hh] at he
      exact hk.2 he
    · exact ⟨hk.1, by simp⟩
  · simp only [hm, if_false]
    exact ⟨hc, by simp⟩

theorem reachable_guarded (env : Env P U) (c : Ctx P U) (h : Reachable env c) :
    ListsGuarded c.dlg := by
  induction h with
  | construct p u => simp [ListsGuarded, construct]
  | external c p u _ ih => exact ih
  | initWindow c _ _ _ => exact Update_guarded _ _
  | deinitWindow c n _ _ => simp [ListsGuarded, OnDeinitWindow, Clear]
  | update c _ _ _ => exact Update_guarded _ _
  | message c m b _ _ ih => exact (OnMessage_guarded env m c ih).1

theorem run_of_not_accepts (env : Env P U) (h : Handler) (m : CGUIMessage) (c : Ctx P U)
    (hn : ¬ h.accepts env m c) : h.run env m c = (.ok false, c) := by
  cases h <;>
    simp only [Handler.accepts, Handler.controlCondition] at hn <;>
    simp only [Handler.run, ActionButtonOk, ActionButtonNewGroup, ActionButtonDeleteGroup,
      ActionButtonRenameGroup, ActionButtonUngroupedChannels, ActionButtonGroupMembers,
      ActionButtonChannelGroups, ActionButtonHideGroup, ActionButtonToggleRadioTV] <;>
    (repeat' split) <;> simp_all

theorem run_of_accepts (env : Env P U) (h : Handler) (m : CGUIMessage) (c : Ctx P U)
    (ha : h.accepts env m c) : (h.run env m c).1 ≠ .ok false := by
  cases h <;>
    simp only [Handler.accepts, Handler.controlCondition] at ha <;>
    simp only [Handler.run, ActionButtonOk, ActionButtonNewGroup, ActionButtonDeleteGroup,
      ActionButtonRenameGroup, ActionButtonUngroupedChannels, ActionButtonGroupMembers,
      ActionButtonChannelGroups, ActionButtonHideGroup, ActionButtonToggleRadioTV] <;>
    (repeat' split) <;>
    first
      | exact thenReturn_true_ne_false _
      | simp_all

theorem accepts_controlCondition (env : Env P U) (h : Handler) (m : CGUIMessage) (c : Ctx P U)
    (ha : h.accepts env m c) : h.controlCondition env m c := by
  cases h <;> simp only [Handler.accepts, Handler.controlCondition] at ha ⊢ <;>
    first
      | exact ha
      | exact ha.1

theorem controlCondition_unique (env : Env P U) (m : CGUIMessage) (c : Ctx P U)
    (hv : viewsOwnOnlyLists env c.gui) (h₁ h₂ : Handler)
    (a₁ : h₁.controlCondition env m c) (a₂ : h₂.controlCondition env m c) : h₁ = h₂ := by
  have hv' := hv m.senderId
  simp only [CONTROL_LIST_CHANNELS_LEFT, CONTROL_LIST_CHANNELS_RIGHT,
    CONTROL_LIST_CHANNEL_GROUPS] at hv'
  cases h₁ <;> cases h₂ <;>
    simp only [Handler.controlCondition, BUTTON_HIDE_GROUP, BUTTON_NEWGROUP, BUTTON_RENAMEGROUP,
      BUTTON_DELGROUP, BUTTON_OK, BUTTON_TOGGLE_RADIO_TV] at a₁ a₂ <;>
    first
      | rfl
      | (exfalso; omega)
      | (exfalso; have := hv'.1 a₁; omega)
      | (exfalso; have := hv'.1 a₂; omega)
      | (exfalso; have := hv'.2.1 a₁; omega)
      | (exfalso; have := hv'.2.1 a₂; omega)
      | (exfalso; have := hv'.2.2 a₁; omega)
      | (exfalso; have := hv'.2.2 a₂; omega)
      | (exfalso; have := hv'.1 a₁; have := hv'.2.1 a₂; omega)
      | (exfalso; have := hv'.1 a₁; have := hv'.2.2 a₂; omega)
      | (exfalso; have := hv'.2.1 a₁; have := hv'.1 a₂; omega)
      | (exfalso; have := hv'.2.1 a₁; have := hv'.2.2 a₂; omega)
      | (exfalso; have := hv'.2.2 a₁; have := hv'.1 a₂; omega)
      | (exfalso; have := hv'.2.2 a₁; have := hv'.2.1 a₂; omega)

theorem chain_of_none_accept (env : Env P U) (m : CGUIMessage) (c : Ctx P U) (l : List Handler)
    (hn : ∀ h ∈ l, ¬ h.accepts env m c) : chain env m l c = (.ok false, c) := by
  induction l with
  | nil => rfl
  | cons h hs ih =>
    simp only [chain, run_of_not_accepts env h m c (hn h (List.mem_cons_self _ _)), Res.orElse]
    exact ih fun h' hh' => hn h' (List.mem_cons_of_mem _ hh')

theorem chain_of_accept (env : Env P U) (m : CGUIMessage) (c : Ctx P U)
    (hv : viewsOwnOnlyLists env c.gui) (h : Handler) (ha : h.accepts env m c)
    (l : List Handler) (hmem : h ∈ l) : chain env m l c = h.run env m c := by
  induction l with
  | nil => simp at hmem
  | cons h' hs ih =>
    by_cases he : h' = h
    · subst he
      simp only [chain]
      exact orElse_of_ne_false _ _ (run_of_accepts env h' m c ha)
    · have hn : ¬ h'.accepts env m c := fun ha' =>
        he (controlCondition_unique env m c hv h' h
          (accepts_controlCondition env h' m c ha') (accepts_controlCondition env h m c ha))
      simp only [chain, run_of_not_accepts env h' m c hn, Res.orElse]
      rcases List.mem_cons.mp hmem with hm | hm
      · exact absurd hm.symm he
      · exact ih hm

theorem chain_perm (env : Env P U) (m : CGUIMessage) (c : Ctx P U)
    (hv : viewsOwnOnlyLists env c.gui) (l₁ l₂ : List Handler) (hp : l₁.Perm l₂) :
    chain env m l₁ c = chain env m l₂ c := by
  by_cases hex : ∃ h ∈ l₁, h.accepts env m c
  · obtain ⟨h, hmem, ha⟩ := hex
    rw [chain_of_accept env m c hv h ha l₁ hmem,
      chain_of_accept env m c hv h ha l₂ (hp.mem_iff.mp hmem)]
  · have hn : ∀ h ∈ l₁, ¬ h.accepts env m c := fun h hm ha => hex ⟨h, hm, ha⟩
    rw [chain_of_none_accept env m c l₁ hn,
      chain_of_none_accept env m c l₂ fun h hm => hn h (hp.mem_iff.mpr hm)]

theorem mem_allHandlers (h : Handler) : h ∈ allHandlers := by
  cases h <;> simp [allHandlers]

/-! ## The contract of each handler -/

theorem Update_channelGroups (env : Env P U) (c : Ctx P U) :
    (Update env c).2.dlg.m_channelGroups = env.GetGroupList c.pvr c.dlg.m_bIsRadio := by
  simp only [Update, Clear, List.nil_append]
  split
  · simp
  · rename_i pItem h
    cases hg : env.GetByName c.pvr c.dlg.m_bIsRadio pItem.m_strTitle <;> simp

theorem Update_radio (env : Env P U) (c : Ctx P U) :
    (Update env c).2.dlg.m_bIsRadio = c.dlg.m_bIsRadio :=
  (Update_dlg_kept env c).2.2.2.1

theorem ownCall_updateTail (env : Env P U) (c : Ctx P U) (k : Handler) (e : Event)
    (h : e ∈ updateTail env c) : k.ownCall e = false := by
  obtain ⟨g, rfl⟩ := mem_updateTail env c e h
  cases k <;> rfl

theorem contract_Ok (env : Env P U) (message : CGUIMessage) (c : Ctx P U)
    (hc : Handler.controlCondition Handler.Ok env message c) :
    HandlerContract env Handler.Ok message c := by
  simp only [Handler.controlCondition] at hc
  simp only [HandlerContract, Handler.run, ActionButtonOk,
    PersistChanges, SetRadio, hc, if_true, Handler.callGuard, Handler.refreshGuard,
    Handler.pvrAfterCall, selectAction]
  (repeat' split) <;>
  simp_all [newEvents, thenReturn_snd, Update_log_eq, update_not_mem_updateTail,
    count_update_updateTail, beforeRefresh, Handler.ownCall, List.count_cons,
    List.takeWhile_cons, Update_channelGroups, Update_radio, ownCall_updateTail,
    Handler.callGuard, Handler.refreshGuard]

theorem contract_NewGroup (env : Env P U) (message : CGUIMessage) (c : Ctx P U)
    (hc : Handler.controlCondition Handler.NewGroup env message c) :
    HandlerContract env Handler.NewGroup message c := by
  simp only [Handler.controlCondition] at hc
  simp only [HandlerContract, Handler.run, ActionButtonNewGroup,
    PersistChanges, SetRadio, hc, if_true, Handler.callGuard, Handler.refreshGuard,
    Handler.pvrAfterCall, selectAction]
  (repeat' split) <;>
  simp_all [newEvents, thenReturn_snd, Update_log_eq, update_not_mem_updateTail,
    count_update_updateTail, beforeRefresh, Handler.ownCall, List.count_cons,
    List.takeWhile_cons, Update_channelGroups, Update_radio, ownCall_updateTail,
    Handler.callGuard, Handler.refreshGuard]

theorem contract_DeleteGroup (env : Env P U) (message : CGUIMessage) (c : Ctx P U)
    (hc : Handler.controlCondition Handler.DeleteGroup env message c) :
    HandlerContract env Handler.DeleteGroup message c := by
  simp only [Handler.controlCondition] at hc
  simp only [HandlerContract, Handler.run, ActionButtonDeleteGroup,
    PersistChanges, SetRadio, hc, if_true, Handler.callGuard, Handler.refreshGuard,
    Handler.pvrAfterCall, selectAction]
  (repeat' split) <;>
  simp_all [newEvents, thenReturn_snd, Update_log_eq, update_not_mem_updateTail,
    count_update_updateTail, beforeRefresh, Handler.ownCall, List.count_cons,
    List.takeWhile_cons, Update_channelGroups, Update_radio, ownCall_updateTail,
    Handler.callGuard, Handler.refreshGuard]

theorem contract_RenameGroup (env : Env P U) (message : CGUIMessage) (c : Ctx P U)
    (hc : Handler.controlCondition Handler.RenameGroup env message c) :
    HandlerContract env Handler.RenameGroup message c := by
  simp only [Handler.controlCondition] at hc
  simp only [HandlerContract, Handler.run, ActionButtonRenameGroup,
    PersistChanges, SetRadio, hc, if_true, Handler.callGuard, Handler.refreshGuard,
    Handler.pvrAfterCall, selectAction]
  (repeat' split) <;>
  simp_all [newEvents, thenReturn_snd, Update_log_eq, update_not_mem_updateTail,
    count_update_updateTail, beforeRefresh, Handler.ownCall, List.count_cons,
    List.takeWhile_cons, Update_channelGroups, Update_radio, ownCall_updateTail,
    Handler.callGuard, Handler.refreshGuard]

theorem contract_UngroupedChannels (env : Env P U) (message : CGUIMessage) (c : Ctx P U)
    (hc : Handler.controlCondition Handler.UngroupedChannels env message c) :
    HandlerContract env Handler.UngroupedChannels message c := by
  simp only [Handler.controlCondition] at hc
  simp only [HandlerContract, Handler.run, ActionButtonUngroupedChannels,
    PersistChanges, SetRadio, hc, if_true, Handler.callGuard, Handler.refreshGuard,
    Handler.pvrAfterCall, selectAction]
  (repeat' split) <;>
  simp_all [newEvents, thenReturn_snd, Update_log_eq, update_not_mem_updateTail,
    count_update_updateTail, beforeRefresh, Handler.ownCall, List.count_cons,
    List.takeWhile_cons, Update_channelGroups, Update_radio, ownCall_updateTail,
    Handler.callGuard, Handler.refreshGuard]

theorem contract_GroupMembers (env : Env P U) (message : CGUIMessage) (c : Ctx P U)
    (hc : Handler.controlCondition Handler.GroupMembers env message c) :
    HandlerContract env Handler.GroupMembers message c := by
  simp only [Handler.controlCondition] at hc
  simp only [HandlerContract, Handler.run, ActionButtonGroupMembers,
    PersistChanges, SetRadio, hc, if_true, Handler.callGuard, Handler.refreshGuard,
    Handler.pvrAfterCall, selectAction]
  (repeat' split) <;>
  simp_all [newEvents, thenReturn_snd, Update_log_eq, update_not_mem_updateTail,
    count_update_updateTail, beforeRefresh, Handler.ownCall, List.count_cons,
    List.takeWhile_cons, Update_channelGroups, Update_radio, ownCall_updateTail,
    Handler.callGuard, Handler.refreshGuard]

theorem contract_ChannelGroups (env : Env P U) (message : CGUIMessage) (c : Ctx P U)
    (hc : Handler.controlCondition Handler.ChannelGroups env message c) :
    HandlerContract env Handler.ChannelGroups message c := by
  simp only [Handler.controlCondition] at hc
  simp only [HandlerContract, Handler.run, ActionButtonChannelGroups,
    PersistChanges, SetRadio, hc, if_true, Handler.callGuard, Handler.refreshGuard,
    Handler.pvrAfterCall, selectAction]
  (repeat' split) <;>
  simp_all [newEvents, thenReturn_snd, Update_log_eq, update_not_mem_updateTail,
    count_update_updateTail, beforeRefresh, Handler.ownCall, List.count_cons,
    List.takeWhile_cons, Update_channelGroups, Update_radio, ownCall_updateTail,
    Handler.callGuard, Handler.refreshGuard]

theorem contract_HideGroup (env : Env P U) (message : CGUIMessage) (c : Ctx P U)
    (hc : Handler.controlCondition Handler.HideGroup env message c) :
    HandlerContract env Handler.HideGroup message c := by
  simp only [Handler.controlCondition] at hc
  simp only [HandlerContract, Handler.run, ActionButtonHideGroup,
    PersistChanges, SetRadio, hc, if_true, Handler.callGuard, Handler.refreshGuard,
    Handler.pvrAfterCall, selectAction]
  (repeat' split) <;>
  simp_all [newEvents, thenReturn_snd, Update_log_eq, update_not_mem_updateTail,
    count_update_updateTail, beforeRefresh, Handler.ownCall, List.count_cons,
    List.takeWhile_cons, Update_channelGroups, Update_radio, ownCall_updateTail,
    Handler.callGuard, Handler.refreshGuard]

theorem contract_ToggleRadioTV (env : Env P U) (message : CGUIMessage) (c : Ctx P U)
    (hc : Handler.controlCondition Handler.ToggleRadioTV env message c) :
    HandlerContract env Handler.ToggleRadioTV message c := by
  simp only [Handler.controlCondition] at hc
  simp only [HandlerContract, Handler.run, ActionButtonToggleRadioTV,
    PersistChanges, SetRadio, hc, if_true, Handler.callGuard, Handler.refreshGuard,
    Handler.pvrAfterCall, selectAction]
  (repeat' split) <;>
  simp_all [newEvents, thenReturn_snd, Update_log_eq, update_not_mem_updateTail,
    count_update_updateTail, beforeRefresh, Handler.ownCall, List.count_cons,
    List.takeWhile_cons, Update_channelGroups, Update_radio, ownCall_updateTail,
    Handler.callGuard, Handler.refreshGuard]

/-! ## The selected group and the list entries -/

/-- C1: in every state reachable from construction through `OnInitWindow`,
`OnDeinitWindow`, `Update` and messages, no message, no click, none of the nine
handlers, no `Update`, no `OnInitWindow` and no `OnDeinitWindow` dereferences a
null `m_selectedGroup`; in particular, whenever the ungrouped list has at least
one file (the only check before the `AddToGroup` call), a group is selected. -/
theorem selected_group_deref_safe (env : Env P U) (c : Ctx P U) (h : Reachable env c) :
    (∀ m, (OnMessage env m c).1 ≠ .error Fault.nullSelectedGroup) ∧
    (∀ m, (OnMessageClick env m c).1 ≠ .error Fault.nullSelectedGroup) ∧
    (∀ (hd : Handler) m, (hd.run env m c).1 ≠ .error Fault.nullSelectedGroup) ∧
    (Update env c).1 ≠ .error Fault.nullSelectedGroup ∧
    (OnInitWindow env c).1 ≠ .error Fault.nullSelectedGroup ∧
    (∀ n, (OnDeinitWindow env n c).1 ≠ .error Fault.nullSelectedGroup) ∧
    (CFileItemList.GetFileCount c.dlg.m_ungroupedChannels > 0 →
      c.dlg.m_selectedGroup.isSome = true) := by
  have hc := reachable_guarded env c h
  refine ⟨fun m => (OnMessage_guarded env m c hc).2, fun m => ?_,
    fun hd m => run_no_null_group env hd m c hc, Update_no_null_group env c,
    Update_no_null_group env _, fun n => by simp [OnDeinitWindow], fun hpos => ?_⟩
  · rw [OnMessageClick_eq_chain]
    exact (chain_guarded env m allHandlers c hc).2
  · cases hs : c.dlg.m_selectedGroup with
    | some g => rfl
    | none =>
      have := (hc hs).1
      simp [this, CFileItemList.GetFileCount] at hpos

/-- Witness for C1: the state after `OnInitWindow` on a container with one
group is reachable, and a select click on the ungrouped list is safe there. -/
theorem selected_group_deref_safe_witness :
    Reachable (scripted oneGroup) (OnInitWindow (scripted oneGroup) (construct () ())).2 ∧
    (ActionButtonUngroupedChannels (scripted oneGroup) (click 11 7)
      (OnInitWindow (scripted oneGroup) (construct () ())).2).1 ≠
        .error Fault.nullSelectedGroup :=
  ⟨Reachable.initWindow _ (Reachable.construct () ()) (by rfl),
   (selected_group_deref_safe (scripted oneGroup) _
      (Reachable.initWindow _ (Reachable.construct () ()) (by rfl))).2.2.1
        Handler.UngroupedChannels (click 11 7)⟩

/-- C2: `Update` reads the title of the entry at the view's selected index
without any check.  On a container whose group list is empty the entry is
absent and `Update` (and with it `OnInitWindow`) dereferences the null entry;
the same happens on a non-empty list when the view reports no selection (-1). -/
theorem Update_dereferences_missing_entry :
    (scripted noGroups).GetGroupList () false = [] ∧
    entryAtSelection (scripted noGroups) (construct () ()) = none ∧
    (Update (scripted noGroups) (construct () ())).1 = .error Fault.nullListItem ∧
    (OnInitWindow (scripted noGroups) (construct () ())).1 = .error Fault.nullListItem ∧
    (Update (scripted noSelection) (construct () ())).1 = .error Fault.nullListItem := by
  refine ⟨rfl, rfl, rfl, rfl, rfl⟩

/-- C3: for a click from a control of the ungrouped-channels view with action
select or left click, when the displayed group list has folder count 0, the
handler shows the OK notice (heading 19033, text 19137) and nothing else: the
log gains only that notice (no `AddToGroup`, no refresh), the PVR state, the
three list snapshots and the selected group are unchanged, and it returns
true. -/
theorem ungrouped_click_without_groups (env : Env P U) (c : Ctx P U) (message : CGUIMessage)
    (hCtl : env.HasControl c.gui View.ungrouped message.senderId = true)
    (hAct : message.param1 = env.ACTION_SELECT_ITEM ∨
      message.param1 = env.ACTION_MOUSE_LEFT_CLICK)
    (hNone : CFileItemList.GetFolderCount c.dlg.m_channelGroups = 0) :
    (ActionButtonUngroupedChannels env message c).1 = .ok true ∧
    (ActionButtonUngroupedChannels env message c).2.log =
      c.log ++ [Event.showOKDialogText 19033 19137] ∧
    (ActionButtonUngroupedChannels env message c).2.gui =
      env.ShowOKDialogText c.gui 19033 19137 ∧
    (ActionButtonUngroupedChannels env message c).2.pvr = c.pvr ∧
    (ActionButtonUngroupedChannels env message c).2.dlg.m_ungroupedChannels =
      c.dlg.m_ungroupedChannels ∧
    (ActionButtonUngroupedChannels env message c).2.dlg.m_groupMembers = c.dlg.m_groupMembers ∧
    (ActionButtonUngroupedChannels env message c).2.dlg.m_channelGroups = c.dlg.m_channelGroups ∧
    (ActionButtonUngroupedChannels env message c).2.dlg.m_selectedGroup =
      c.dlg.m_selectedGroup := by
  simp [ActionButtonUngroupedChannels, hCtl, hAct, hNone]

/-- Witness for C3: a select click (action 7) from control 11 on a freshly
constructed dialog, whose group list is still empty. -/
theorem ungrouped_click_without_groups_witness :
    (ActionButtonUngroupedChannels (scripted noGroups) (click 11 7) (construct () ())).1
        = .ok true ∧
    (ActionButtonUngroupedChannels (scripted noGroups) (click 11 7) (construct () ())).2.log
        = [Event.showOKDialogText 19033 19137] :=
  ⟨(ungrouped_click_without_groups (scripted noGroups) (construct () ()) (click 11 7)
      (by decide) (by decide) (by decide)).1,
   (ungrouped_click_without_groups (scripted noGroups) (construct () ()) (click 11 7)
      (by decide) (by decide) (by decide)).2.1⟩

/-- C4: `Update` returns exactly when the entry at the view's selected index
exists.  After every call that returns, the channel-group list is the
container's group list for the current mode; if the selected group resolved to
`g`, the PVR state is the one after `SetPlayingGroup g` and the ungrouped and
member lists are `GetMembers g false` and `GetMembers g true` of that state; if
it did not resolve, both lists are empty.  The three lists held before the call
have no influence on the outcome, so no item from before the call survives. -/
theorem Update_snapshots_match (env : Env P U) (c : Ctx P U) :
    ((Update env c).1 = .ok () ↔ (entryAtSelection env c).isSome = true) ∧
    ((Update env c).1 = .ok () →
      (Update env c).2.dlg.m_channelGroups = env.GetGroupList c.pvr c.dlg.m_bIsRadio ∧
      (∀ g, (Update env c).2.dlg.m_selectedGroup = some g →
        (Update env c).2.pvr = env.SetPlayingGroup c.pvr g ∧
        (Update env c).2.dlg.m_ungroupedChannels =
          env.GetMembers (Update env c).2.pvr g false ∧
        (Update env c).2.dlg.m_groupMembers = env.GetMembers (Update env c).2.pvr g true) ∧
      ((Update env c).2.dlg.m_selectedGroup = none →
        (Update env c).2.pvr = c.pvr ∧
        (Update env c).2.dlg.m_ungroupedChannels = [] ∧
        (Update env c).2.dlg.m_groupMembers = [])) ∧
    (∀ l₁ l₂ l₃,
      Update env { c with dlg := { c.dlg with
        m_ungroupedChannels := l₁, m_groupMembers := l₂, m_channelGroups := l₃ } } =
      Update env c) := by
  cases h : entryAtSelection env c with
  | none =>
    have hf := Update_fst_of_none env c h
    refine ⟨by simp [hf], by simp [hf], ?_⟩
    simp only [entryAtSelection, guiAtSelection, Clear] at h
    simp [Update, Clear, h]
  | some pItem =>
    refine ⟨by simp [Update_fst_of_some env c pItem h], fun _ => ?_, ?_⟩ <;>
    · simp only [entryAtSelection, guiAtSelection, Clear] at h
      simp only [Update, Clear, List.nil_append, h]
      cases hg : env.GetByName c.pvr c.dlg.m_bIsRadio pItem.m_strTitle <;> simp

/-- Witness for C4: a refresh of a fresh dialog on a container with one group. -/
theorem Update_snapshots_match_witness :
    (Update (scripted oneGroup) (construct () ())).1 = .ok () ∧
    (Update (scripted oneGroup) (construct () ())).2.dlg.m_channelGroups = oneGroup.groupList ∧
    (Update (scripted oneGroup) (construct () ())).2.dlg.m_ungroupedChannels
      = oneGroup.nonMembers ∧
    (Update (scripted oneGroup) (construct () ())).2.dlg.m_groupMembers = oneGroup.members :=
  ⟨(Update_snapshots_match (scripted oneGroup) (construct () ())).1.mpr (by rfl),
   ((Update_snapshots_match (scripted oneGroup) (construct () ())).2.1 (by rfl)).1,
   (((Update_snapshots_match (scripted oneGroup) (construct () ())).2.1 (by rfl)).2.1 1
      (by rfl)).2.1,
   (((Update_snapshots_match (scripted oneGroup) (construct () ())).2.1 (by rfl)).2.1 1
      (by rfl)).2.2⟩

/-- C5: `Update` returns exactly when the entry at the view's selected index
exists, and then the selected group is `GetByName` (for the current mode) of
that entry's title; the selected group held before the call has no influence on
the outcome. -/
theorem Update_resolves_selected_group (env : Env P U) (c : Ctx P U) :
    ((Update env c).1 = .ok () ↔ (entryAtSelection env c).isSome = true) ∧
    (∀ pItem, entryAtSelection env c = some pItem →
      (Update env c).2.dlg.m_selectedGroup =
        env.GetByName c.pvr c.dlg.m_bIsRadio pItem.m_strTitle) ∧
    (∀ old,
      (Update env { c with dlg := { c.dlg with m_selectedGroup := old } }).1 =
        (Update env c).1 ∧
      ((Update env c).1 = .ok () →
        Update env { c with dlg := { c.dlg with m_selectedGroup := old } } = Update env c)) := by
  cases h : entryAtSelection env c with
  | none =>
    have hf := Update_fst_of_none env c h
    refine ⟨by simp [hf], by simp, fun old => ⟨?_, by simp [hf]⟩⟩
    rw [hf]
    exact Update_fst_of_none env _ h
  | some pItem =>
    refine ⟨by simp [Update_fst_of_some env c pItem h], ?_, fun old => ⟨?_, fun _ => ?_⟩⟩
    · intro p hp
      cases hp
      simp only [entryAtSelection, guiAtSelection, Clear] at h
      simp only [Update, Clear, List.nil_append, h]
      cases hg : env.GetByName c.pvr c.dlg.m_bIsRadio pItem.m_strTitle <;> simp
    · rw [Update_fst_of_some env c pItem h]
      exact Update_fst_of_some env _ pItem h
    · simp only [entryAtSelection, guiAtSelection, Clear] at h
      simp only [Update, Clear, List.nil_append, h]

/-- Witness for C5: the entry "Favourites" resolves to group 1. -/
theorem Update_resolves_selected_group_witness :
    (Update (scripted oneGroup) (construct () ())).1 = .ok () ∧
    (Update (scripted oneGroup) (construct () ())).2.dlg.m_selectedGroup = some 1 :=
  ⟨(Update_resolves_selected_group (scripted oneGroup) (construct () ())).1.mpr (by rfl),
   (Update_resolves_selected_group (scripted oneGroup) (construct () ())).2.1
    { m_strTitle := "Favourites", m_bIsFolder := true, channel := none } (by rfl)⟩

/-! ## The click handlers -/

/-- C6 (counterexample): a click from `BUTTON_OK` satisfies the control
condition of `ActionButtonOk`, which persists, closes, returns true and performs
no refresh. -/
theorem ok_click_performs_no_refresh :
    Handler.controlCondition Handler.Ok (scripted oneGroup) (click 29 0) (construct () ()) ∧
    (ActionButtonOk (scripted oneGroup) (click 29 0) (construct () ())).1 = .ok true ∧
    (ActionButtonOk (scripted oneGroup) (click 29 0) (construct () ())).2.log =
      [Event.persistAll false, Event.close] ∧
    Event.update ∉ (ActionButtonOk (scripted oneGroup) (click 29 0) (construct () ())).2.log := by
  refine ⟨rfl, rfl, rfl, ?_⟩
  decide

/-- C6 (amended): for a click that satisfies the handler's control condition,
the handler only appends to the call log; it makes its own container call
exactly when its call guard holds and refreshes exactly when its refresh guard
holds, at most once.  A refresh comes after the container call
(`ActionButtonChannelGroups`, which refreshes exactly on a select or left-click
action, makes no container call) and reads the group list from the PVR state
that the call left behind, in the mode that the handler left behind.  Without a
refresh the PVR state is the one the call left behind, or the original one when
no call was made.  Only the radio/TV toggle changes the mode, and it always
persists and refreshes.  `ActionButtonOk` persists, closes, returns true and
never refreshes. -/
theorem handlers_call_then_refresh (env : Env P U) (h : Handler) (message : CGUIMessage)
    (c : Ctx P U) (hc : h.controlCondition env message c) :
    (h.run env message c).2.log = c.log ++ newEvents c (h.run env message c) ∧
    ((∃ e ∈ newEvents c (h.run env message c), h.ownCall e = true) ↔
      h.callGuard env message c) ∧
    (Event.update ∈ newEvents c (h.run env message c) ↔ h.refreshGuard env message c) ∧
    (newEvents c (h.run env message c)).count Event.update ≤ 1 ∧
    (h.refreshGuard env message c →
      (h = Handler.ChannelGroups ∨
        (beforeRefresh (newEvents c (h.run env message c))).any h.ownCall = true) ∧
      (h.run env message c).2.dlg.m_channelGroups =
        env.GetGroupList (h.pvrAfterCall env message c)
          (h.run env message c).2.dlg.m_bIsRadio) ∧
    (¬ h.refreshGuard env message c →
      (h.callGuard env message c →
        (h.run env message c).2.pvr = h.pvrAfterCall env message c) ∧
      (¬ h.callGuard env message c → (h.run env message c).2.pvr = c.pvr)) ∧
    ((h.run env message c).2.dlg.m_bIsRadio =
      if h = Handler.ToggleRadioTV then !c.dlg.m_bIsRadio else c.dlg.m_bIsRadio) ∧
    (h = Handler.Ok →
      newEvents c (h.run env message c) = [Event.persistAll c.dlg.m_bIsRadio, Event.close] ∧
      (h.run env message c).2.gui = env.Close c.gui ∧
      (h.run env message c).1 = .ok true) := by
  cases h
  · exact contract_Ok env message c hc
  · exact contract_NewGroup env message c hc
  · exact contract_DeleteGroup env message c hc
  · exact contract_RenameGroup env message c hc
  · exact contract_UngroupedChannels env message c hc
  · exact contract_GroupMembers env message c hc
  · exact contract_ChannelGroups env message c hc
  · exact contract_HideGroup env message c hc
  · exact contract_ToggleRadioTV env message c hc

/-- Witness for C6 (amended): a confirmed deletion on a container with one
group logs the yes/no dialog, the `DeleteGroup` call and then the refresh, and a
click from `BUTTON_OK` makes its call without a refresh. -/
theorem handlers_call_then_refresh_witness :
    newEvents (OnInitWindow (scripted oneGroup) (construct () ())).2
      (Handler.run Handler.DeleteGroup (scripted oneGroup) (click 28 0)
        (OnInitWindow (scripted oneGroup) (construct () ())).2) =
      [Event.yesNoOpen, Event.deleteGroup false 1, Event.update, Event.getGroupList false,
       Event.setPlayingGroup 1] ∧
    Event.update ∈ newEvents (OnInitWindow (scripted oneGroup) (construct () ())).2
      (Handler.run Handler.DeleteGroup (scripted oneGroup) (click 28 0)
        (OnInitWindow (scripted oneGroup) (construct () ())).2) ∧
    Event.update ∉ newEvents (construct () ())
      (Handler.run Handler.Ok (scripted oneGroup) (click 29 0) (construct () ())) :=
  ⟨by decide,
   (handlers_call_then_refresh (scripted oneGroup) Handler.DeleteGroup (click 28 0)
      (OnInitWindow (scripted oneGroup) (construct () ())).2 (by rfl)).2.2.1.mpr
        ⟨1, rfl, rfl, rfl, rfl⟩,
   fun hu => (handlers_call_then_refresh (scripted oneGroup) Handler.Ok (click 29 0)
      (construct () ()) (by rfl)).2.2.1.mp hu⟩

/-- The radio/TV toggle in general: a click from `BUTTON_TOGGLE_RADIO_TV`
first persists the groups of the mode that was active, then refreshes in the
inverted mode; afterwards the radio flag is inverted, the window property
"IsRadio" is "true" exactly when the new flag is true, and the three selected
indices are unchanged.  The handler returns true when the refresh finds its
list entry and ends on the null entry otherwise.  A second toggle click
restores the original flag.  When the list views own only the controls 11, 12
and 13, `OnMessageClick` handles the click with this handler. -/
theorem toggle_radio_tv (env : Env P U) (c : Ctx P U) (message : CGUIMessage)
    (h : message.senderId = BUTTON_TOGGLE_RADIO_TV) :
    (∃ rest, (ActionButtonToggleRadioTV env message c).2.log =
        c.log ++ Event.persistAll c.dlg.m_bIsRadio :: Event.update ::
          Event.getGroupList (!c.dlg.m_bIsRadio) :: rest ∧
        (rest = [] ∨ ∃ g, rest = [Event.setPlayingGroup g])) ∧
    (ActionButtonToggleRadioTV env message c).2.dlg.m_bIsRadio = (!c.dlg.m_bIsRadio) ∧
    ((ActionButtonToggleRadioTV env message c).2.dlg.propIsRadio = "true" ↔
      (ActionButtonToggleRadioTV env message c).2.dlg.m_bIsRadio = true) ∧
    (ActionButtonToggleRadioTV env message c).2.dlg.m_iSelectedUngroupedChannel =
      c.dlg.m_iSelectedUngroupedChannel ∧
    (ActionButtonToggleRadioTV env message c).2.dlg.m_iSelectedGroupMember =
      c.dlg.m_iSelectedGroupMember ∧
    (ActionButtonToggleRadioTV env message c).2.dlg.m_iSelectedChannelGroup =
      c.dlg.m_iSelectedChannelGroup ∧
    ((ActionButtonToggleRadioTV env message c).1 = .ok true ∨
      (ActionButtonToggleRadioTV env message c).1 = .error Fault.nullListItem) ∧
    (∀ pItem,
      entryAtSelection env (SetRadio (PersistChanges env c).2 (!c.dlg.m_bIsRadio)) = some pItem →
      (ActionButtonToggleRadioTV env message c).1 = .ok true) ∧
    (ActionButtonToggleRadioTV env message
      (ActionButtonToggleRadioTV env message c).2).2.dlg.m_bIsRadio = c.dlg.m_bIsRadio ∧
    (viewsOwnOnlyLists env c.gui →
      OnMessageClick env message c = ActionButtonToggleRadioTV env message c) := by
  have key : ∀ c : Ctx P U, ActionButtonToggleRadioTV env message c =
      (Update env (SetRadio (PersistChanges env c).2 (!c.dlg.m_bIsRadio))).thenReturn true := by
    intro c
    simp [ActionButtonToggleRadioTV, h, PersistChanges]
  have kept := fun c : Ctx P U =>
    Update_dlg_kept env (SetRadio (PersistChanges env c).2 (!c.dlg.m_bIsRadio))
  have hflag : (ActionButtonToggleRadioTV env message c).2.dlg.m_bIsRadio =
      (!c.dlg.m_bIsRadio) := by
    rw [key, thenReturn_snd, (kept c).2.2.2.1]; rfl
  refine ⟨⟨_, ?_, updateTail_cases env
      (SetRadio (PersistChanges env c).2 (!c.dlg.m_bIsRadio))⟩, hflag, ?_, ?_, ?_, ?_, ?_, ?_,
    ?_, ?_⟩
  · rw [key, thenReturn_snd, Update_log_eq]
    simp [SetRadio, PersistChanges]
  · rw [hflag, key, thenReturn_snd, (kept c).2.2.2.2]
    cases c.dlg.m_bIsRadio <;> simp [SetRadio, PersistChanges]
  · rw [key, thenReturn_snd, (kept c).1]; rfl
  · rw [key, thenReturn_snd, (kept c).2.1]; rfl
  · rw [key, thenReturn_snd, (kept c).2.2.1]; rfl
  · rw [key, thenReturn_fst]
    rcases Update_fst env (SetRadio (PersistChanges env c).2 (!c.dlg.m_bIsRadio)) with hu | hu <;>
      simp [hu, Except.map]
  · intro pItem hp
    rw [key, thenReturn_fst, Update_fst_of_some env _ pItem hp]
    rfl
  · rw [key (ActionButtonToggleRadioTV env message c).2, thenReturn_snd, (kept _).2.2.2.1]
    simp only [SetRadio, PersistChanges]
    rw [hflag]
    simp
  · intro hv
    rw [OnMessageClick_eq_chain]
    exact chain_of_accept env message c hv Handler.ToggleRadioTV h allHandlers
      (mem_allHandlers _)

/-- C7: the toggle handler does not return true in every dialog state.  In
the state reached by `OnInitWindow` on a container with one TV group and no
radio group, a click from `BUTTON_TOGGLE_RADIO_TV` persists the TV groups,
switches to radio mode and enters the refresh, which reads the title of the
missing first entry of the empty radio group list: the handler ends in a null
dereference instead of returning true. -/
theorem toggle_click_faults_without_radio_groups :
    Reachable tvOnly (OnInitWindow tvOnly (construct () ())).2 ∧
    (ActionButtonToggleRadioTV tvOnly (click 34 0)
      (OnInitWindow tvOnly (construct () ())).2).1 = .error Fault.nullListItem ∧
    newEvents (OnInitWindow tvOnly (construct () ())).2
      (ActionButtonToggleRadioTV tvOnly (click 34 0)
        (OnInitWindow tvOnly (construct () ())).2) =
      [Event.persistAll false, Event.update, Event.getGroupList true] ∧
    (ActionButtonToggleRadioTV tvOnly (click 34 0)
      (OnInitWindow tvOnly (construct () ())).2).2.dlg.m_bIsRadio = true :=
  ⟨Reachable.initWindow _ (Reachable.construct () ()) (by rfl), by rfl, by decide, by rfl⟩

/-- C9: for a click from `BUTTON_DELGROUP`, the handler only appends to the log;
`DeleteGroup` is called exactly when a group is selected, the yes/no dialog
exists and the user confirmed; a refresh happens exactly when, in addition,
`DeleteGroup` reported success; with no selected group or no yes/no dialog the
handler returns false and changes nothing; when the user declines it returns
true, having only opened the yes/no dialog. -/
theorem delete_group_guarded (env : Env P U) (c : Ctx P U) (message : CGUIMessage)
    (h : message.senderId = BUTTON_DELGROUP) :
    (ActionButtonDeleteGroup env message c).2.log =
      c.log ++ newEvents c (ActionButtonDeleteGroup env message c) ∧
    ((∃ b g, Event.deleteGroup b g ∈ newEvents c (ActionButtonDeleteGroup env message c)) ↔
      ∃ g, c.dlg.m_selectedGroup = some g ∧ env.hasYesNoDialog c.gui = true ∧
        (env.yesNoOpen c.gui (env.GroupName c.pvr g)).2 = true) ∧
    (Event.update ∈ newEvents c (ActionButtonDeleteGroup env message c) ↔
      ∃ g, c.dlg.m_selectedGroup = some g ∧ env.hasYesNoDialog c.gui = true ∧
        (env.yesNoOpen c.gui (env.GroupName c.pvr g)).2 = true ∧
        (env.DeleteGroup c.pvr c.dlg.m_bIsRadio g).2 = true) ∧
    (c.dlg.m_selectedGroup = none ∨ env.hasYesNoDialog c.gui = false →
      ActionButtonDeleteGroup env message c = (.ok false, c)) ∧
    (∀ g, c.dlg.m_selectedGroup = some g → env.hasYesNoDialog c.gui = true →
      (env.yesNoOpen c.gui (env.GroupName c.pvr g)).2 = false →
      (ActionButtonDeleteGroup env message c).1 = .ok true ∧
      newEvents c (ActionButtonDeleteGroup env message c) = [Event.yesNoOpen] ∧
      (ActionButtonDeleteGroup env message c).2.pvr = c.pvr ∧
      (ActionButtonDeleteGroup env message c).2.dlg = c.dlg) := by
  cases hsel : c.dlg.m_selectedGroup with
  | none => simp [ActionButtonDeleteGroup, h, hsel, newEvents]
  | some g =>
    cases hyn : env.hasYesNoDialog c.gui with
    | false => simp [ActionButtonDeleteGroup, h, hsel, hyn, newEvents]
    | true =>
      cases hconf : (env.yesNoOpen c.gui (env.GroupName c.pvr g)).2 with
      | false => simp [ActionButtonDeleteGroup, h, hsel, hyn, hconf, newEvents]
      | true =>
        cases hdel : (env.DeleteGroup c.pvr c.dlg.m_bIsRadio g).2 with
        | false => simp [ActionButtonDeleteGroup, h, hsel, hyn, hconf, hdel, newEvents]
        | true =>
          have hb : ∃ b, c.dlg.m_bIsRadio = b := ⟨_, rfl⟩
          simp [ActionButtonDeleteGroup, h, hsel, hyn, hconf, hdel, newEvents,
            thenReturn_snd, Update_log_eq, deleteGroup_not_mem_updateTail,
            update_not_mem_updateTail, hb]

/-- Witness for C9: the user declines the deletion of the selected group. -/
theorem delete_group_guarded_witness :
    (ActionButtonDeleteGroup (scripted declined) (click 28 0)
      (Update (scripted declined) (construct () ())).2).1 = .ok true ∧
    newEvents (Update (scripted declined) (construct () ())).2
      (ActionButtonDeleteGroup (scripted declined) (click 28 0)
        (Update (scripted declined) (construct () ())).2) = [Event.yesNoOpen] :=
  ⟨((delete_group_guarded (scripted declined)
      (Update (scripted declined) (construct () ())).2 (click 28 0) (by decide)).2.2.2.2 1
        (by rfl) (by rfl) (by rfl)).1,
   ((delete_group_guarded (scripted declined)
      (Update (scripted declined) (construct () ())).2 (click 28 0) (by decide)).2.2.2.2 1
        (by rfl) (by rfl) (by rfl)).2.1⟩

/-- The click dispatch in general: when the three list views own only the
controls 11, 12 and 13, at most one of the nine handlers has its control
condition satisfied by a click; a handler whose control condition is not
satisfied returns false and changes nothing; chaining the nine handlers in any
order gives the outcome of `OnMessageClick`; `OnMessageClick` returns false
exactly when the click is not accepted; and whenever it returns, it returns
true exactly for the accepted clicks. -/
theorem click_dispatch_exclusive (env : Env P U) (c : Ctx P U) (message : CGUIMessage)
    (hv : viewsOwnOnlyLists env c.gui) :
    (∀ h₁ h₂ : Handler, h₁.controlCondition env message c →
      h₂.controlCondition env message c → h₁ = h₂) ∧
    (∀ h : Handler, ¬ h.controlCondition env message c →
      h.run env message c = (.ok false, c)) ∧
    (∀ l : List Handler, l.Perm allHandlers →
      chain env message l c = OnMessageClick env message c) ∧
    ((OnMessageClick env message c).1 = .ok false ↔ ¬ clickAccepted env message c) ∧
    (∀ b, (OnMessageClick env message c).1 = .ok b →
      (b = true ↔ clickAccepted env message c)) := by
  have hiff : (OnMessageClick env message c).1 ≠ .ok false ↔ clickAccepted env message c := by
    unfold clickAccepted
    rw [OnMessageClick_eq_chain]
    constructor
    · intro hne
      by_contra hcon
      apply hne
      rw [chain_of_none_accept env message c allHandlers]
      intro h _ ha
      apply hcon
      cases h <;> simp only [Handler.accepts, Handler.controlCondition] at ha <;> tauto
    · intro hcond
      have hex : ∃ h : Handler, h.accepts env message c := by
        rcases hcond with h | h | h | h | h | h | h | h | h
        · exact ⟨.UngroupedChannels, h⟩
        · exact ⟨.GroupMembers, h⟩
        · exact ⟨.ChannelGroups, h⟩
        · exact ⟨.Ok, h⟩
        · exact ⟨.NewGroup, h⟩
        · exact ⟨.ToggleRadioTV, h⟩
        · exact ⟨.DeleteGroup, h⟩
        · exact ⟨.RenameGroup, h⟩
        · exact ⟨.HideGroup, h⟩
      obtain ⟨h, ha⟩ := hex
      rw [chain_of_accept env message c hv h ha allHandlers (mem_allHandlers h)]
      exact run_of_accepts env h message c ha
  refine ⟨controlCondition_unique env message c hv, fun h hn => ?_, fun l hp => ?_, ?_, ?_⟩
  · exact run_of_not_accepts env h message c
      fun ha => hn (accepts_controlCondition env h message c ha)
  · rw [OnMessageClick_eq_chain]
    exact chain_perm env message c hv l allHandlers hp
  · rw [← hiff]
    exact not_not.symm
  · intro b hb
    rw [← hiff, hb]
    cases b <;> simp

/-- C10: `OnMessageClick` does not return true for every accepted click.  In
the state reached by `OnInitWindow` on a container with one TV group and no
radio group, the views own only the controls 11, 12 and 13 and a click from
`BUTTON_TOGGLE_RADIO_TV` is accepted, yet `OnMessageClick` ends in the null
dereference of the refresh instead of returning true. -/
theorem accepted_click_faults_without_radio_groups :
    Reachable tvOnly (OnInitWindow tvOnly (construct () ())).2 ∧
    viewsOwnOnlyLists tvOnly (OnInitWindow tvOnly (construct () ())).2.gui ∧
    clickAccepted tvOnly (click 34 0) (OnInitWindow tvOnly (construct () ())).2 ∧
    (OnMessageClick tvOnly (click 34 0)
      (OnInitWindow tvOnly (construct () ())).2).1 = .error Fault.nullListItem ∧
    (OnMessageClick tvOnly (click 34 0)
      (OnInitWindow tvOnly (construct () ())).2).1 ≠ .ok true :=
  ⟨Reachable.initWindow _ (Reachable.construct () ()) (by rfl),
   fun id => by simp [tvOnly, scripted],
   Or.inr (Or.inr (Or.inr (Or.inr (Or.inr (Or.inl rfl))))),
   by rfl,
   fun h => absurd
     ((show Except.error Fault.nullListItem = (OnMessageClick tvOnly (click 34 0)
        (OnInitWindow tvOnly (construct () ())).2).1 from rfl).trans h) (by simp)⟩

end PVRGroupManager
